import Mathlib

/-!
# ForFeit-Player: the initialisation chains of `main.c` and `FF-player.c`

Both programs are one `main` each: a command-line check followed by a linear
chain of calls into libavformat / libavcodec, every call followed by a test of
its result and, on failure, a diagnostic on stderr, some release calls and
`return EXIT_FAILURE`.

The embedding is a trace semantics.  The results of the library calls are the
fields of a `Library` record (one field per call site, named after the C
variable that receives the result), `main` is a function from the argument
vector and such a record to a `Run`: the list of library calls and stderr
writes in program order, and how the run ended.  Machine integers are `Int` /
`Nat`; the one place where a conversion can wrap (the unsigned loop counter
assigned to an `int` index) goes through `int_of_unsigned`.
-/

namespace ForFeit

/-! ## Constants of the C environment -/

/-- Largest value of a 32-bit `int`. -/
def INT_MAX : Nat := 2147483647

/-- Largest value of a 32-bit `unsigned int`. -/
def UINT_MAX : Nat := 4294967295

/-- Value of `EXIT_SUCCESS` in `stdlib.h`. -/
def EXIT_SUCCESS : Int := 0

/-- Value of `EXIT_FAILURE` in `stdlib.h`. -/
def EXIT_FAILURE : Int := 1

/-- Value of `AVMEDIA_TYPE_VIDEO` in libavutil's `enum AVMediaType`. -/
def AVMEDIA_TYPE_VIDEO : Int := 0

/-- Value of `AVMEDIA_TYPE_AUDIO` in libavutil's `enum AVMediaType`. -/
def AVMEDIA_TYPE_AUDIO : Int := 1

/-- Conversion of an `unsigned int` value to `int` (`video_stream_inx = i;`):
the value is kept when it fits, and wraps modulo `2^32` otherwise. -/
def int_of_unsigned (u : Nat) : Int :=
  if u % 2 ^ 32 < 2 ^ 31 then ((u % 2 ^ 32 : Nat) : Int)
  else ((u % 2 ^ 32 : Nat) : Int) - 2 ^ 32

/-! ## The part of the library's data the programs read -/

/-- The two fields of `AVCodecParameters` the programs read. -/
structure AVCodecParameters where
  codec_type : Int
  codec_id : Int

/-- The one field of `AVStream` the programs read. -/
structure AVStream where
  codecpar : AVCodecParameters

/-- The two fields of `AVFormatContext` the programs read: `nb_streams` is an
`unsigned int`, `streams` is the array `streams[0 .. nb_streams - 1]`. -/
structure AVFormatContext where
  nb_streams : Nat
  streams : Nat → AVStream

/-- The read `ctx->streams[inx]` with an `int` index: `none` when the index is
outside `[0, nb_streams)`. -/
def stream_at (ctx : AVFormatContext) (inx : Int) : Option AVStream :=
  if 0 ≤ inx ∧ inx < (ctx.nb_streams : Int) then some (ctx.streams inx.toNat) else none

/-- Results of the library calls of one run, one field per call site.
* `avformat_open_input url`: the return value of the open call on `url`;
* `avformat_find_stream_info`: the return value of the probe;
* `ctx`: the format context as it stands after the probe;
* `video_decodec id`, `audio_decodec id`: whether the first / second
  `avcodec_find_decoder` call, made with codec id `id`, returns non-NULL;
* `video_codec_ctx`, `audio_codec_ctx`: whether the first / second
  `avcodec_alloc_context3` call returns non-NULL;
* `video_ctx_copy_success`, `audio_ctx_copy_success`: return values of the two
  `avcodec_parameters_to_context` calls;
* `video_decoder_init`, `audio_decoder_init`: return values of the two
  `avcodec_open2` calls;
* `packet`, `frame`: whether `av_packet_alloc` / `av_frame_alloc` return
  non-NULL. -/
structure Library where
  avformat_open_input : String → Int
  avformat_find_stream_info : Int
  ctx : AVFormatContext
  video_decodec : Int → Bool
  audio_decodec : Int → Bool
  video_codec_ctx : Bool
  audio_codec_ctx : Bool
  video_ctx_copy_success : Int
  audio_ctx_copy_success : Int
  video_decoder_init : Int
  audio_decoder_init : Int
  packet : Bool
  frame : Bool

/-! ## Traces -/

/-- Which of the two codec-side variables a call is about. -/
inductive Side
  | video
  | audio
  deriving DecidableEq, Repr

/-- One observable action: a write to stderr or a library call, with the
arguments that identify it and the result it gave.  The last five
constructors are library calls that neither program makes; they are in the
alphabet so that their absence can be stated. -/
inductive Event
  | stderr (msg : String)
  | avformat_open_input (url : String) (ret : Int)
  | avformat_find_stream_info (ret : Int)
  | avformat_close_input
  | avcodec_find_decoder (codec_id : Int) (found : Bool)
  | avcodec_alloc_context3 (s : Side) (ok : Bool)
  | avcodec_free_context (s : Side)
  | avcodec_parameters_to_context (s : Side) (stream_inx : Int) (ret : Int)
  | avcodec_open2 (s : Side) (ret : Int)
  | av_packet_alloc (ok : Bool)
  | av_frame_alloc (ok : Bool)
  | av_packet_free
  | av_frame_free
  | av_read_frame
  | avcodec_send_packet
  | avcodec_receive_frame
  deriving DecidableEq, Repr

/-- How a run ends: `main` returns a code, or the run reads `ctx->streams`
outside the array (undefined behaviour, nothing is known from there on). -/
inductive Outcome
  | returned (code : Int)
  | out_of_range_read
  deriving DecidableEq, Repr

/-- A run: what was done, in order, and how it ended. -/
structure Run where
  trace : List Event
  outcome : Outcome
  deriving DecidableEq, Repr

/-! ## The stream scan (main.c 81-87 and 96-102, FF-player.c 80-86 and 95-101) -/

/-- The loop `for (unsigned int i = ...; i < ctx->nb_streams; i++)` with body
`if (streams[i]->codecpar->codec_type == ty) { inx = i; break; }`, started at
counter value `i` with `remaining = nb_streams - i` iterations left and the
index variable still at its initial `-1`.  The counter cannot wrap: inside the
loop `i < nb_streams <= UINT_MAX`. -/
def scan_loop (ctx : AVFormatContext) (ty : Int) : Nat → Nat → Int
  | 0, _ => -1
  | remaining + 1, i =>
    if (ctx.streams i).codecpar.codec_type = ty then int_of_unsigned i
    else scan_loop ctx ty remaining (i + 1)

/-- The value of `video_stream_inx` (`ty = AVMEDIA_TYPE_VIDEO`) or
`audio_stream_inx` (`ty = AVMEDIA_TYPE_AUDIO`) after its scan. -/
def find_stream (ctx : AVFormatContext) (ty : Int) : Int :=
  scan_loop ctx ty ctx.nb_streams 0

/-- The usage line of step 0, `argv0` being what `%s` prints for `argv[0]`. -/
def usage (argv0 : String) : String :=
  "Usage: " ++ argv0 ++ " t1.c <videofile.mp4> <outputfile>\n"

/-- The string `argv[i]`; `"(null)"` (what `%s` prints for a null pointer)
when `i` is not below `argc`. -/
def arg (argv : List String) (i : Nat) : String :=
  argv.getD i "(null)"

/-! ## FF-player.c -/

/-- The function `main` of FF-player.c (lines 40-133). -/
def FFPlayer.main (argv : List String) (lib : Library) : Run :=
  let argc : Int := argv.length
  -- Step 0
  if argc < 3 then
    ⟨[.stderr (usage (arg argv 0))], .returned EXIT_FAILURE⟩
  else
  -- Step 1
  let file_open := lib.avformat_open_input (arg argv 1)
  let t1 : List Event := [.avformat_open_input (arg argv 1) file_open]
  if file_open ≠ 0 then
    ⟨t1 ++ [.stderr ("Could not open file: " ++ arg argv 1 ++ "\n")], .returned EXIT_FAILURE⟩
  else
  let ctx := lib.ctx
  let stream_info := lib.avformat_find_stream_info
  let t2 := t1 ++ [.avformat_find_stream_info stream_info]
  if stream_info < 0 then
    ⟨t2 ++ [.stderr "Could not find stream information\n", .avformat_close_input],
      .returned EXIT_FAILURE⟩
  else
  let video_stream_inx := find_stream ctx AVMEDIA_TYPE_VIDEO
  if video_stream_inx = -1 then
    ⟨t2 ++ [.stderr "Could not find a video stream in the input file\n", .avformat_close_input],
      .returned EXIT_FAILURE⟩
  else
  let audio_stream_inx := find_stream ctx AVMEDIA_TYPE_AUDIO
  if audio_stream_inx = -1 then
    ⟨t2 ++ [.stderr "Could not find an audio stream in the input file\n", .avformat_close_input],
      .returned EXIT_FAILURE⟩
  else
  -- Step 2
  match stream_at ctx video_stream_inx with
  | none => ⟨t2, .out_of_range_read⟩
  | some video_stream =>
  let video_decodec := lib.video_decodec video_stream.codecpar.codec_id
  let t3 := t2 ++ [.avcodec_find_decoder video_stream.codecpar.codec_id video_decodec]
  if video_decodec = false then
    ⟨t3 ++ [.stderr "Invalid video codec\n", .avformat_close_input], .returned EXIT_FAILURE⟩
  else
  match stream_at ctx audio_stream_inx with
  | none => ⟨t3, .out_of_range_read⟩
  | some audio_stream =>
  let audio_decodec := lib.audio_decodec audio_stream.codecpar.codec_id
  let t4 := t3 ++ [.avcodec_find_decoder audio_stream.codecpar.codec_id audio_decodec]
  if audio_decodec = false then
    ⟨t4 ++ [.stderr "Invalid audio codec\n", .avformat_close_input], .returned EXIT_FAILURE⟩
  else
  ⟨t4, .returned EXIT_SUCCESS⟩

/-! ## main.c -/

/-- The function `main` of main.c (lines 41-290). -/
def MainC.main (argv : List String) (lib : Library) : Run :=
  let argc : Int := argv.length
  -- Step 0
  if argc < 3 then
    ⟨[.stderr (usage (arg argv 0))], .returned EXIT_FAILURE⟩
  else
  -- Step 1
  let file_open := lib.avformat_open_input (arg argv 1)
  let t1 : List Event := [.avformat_open_input (arg argv 1) file_open]
  if file_open ≠ 0 then
    ⟨t1 ++ [.stderr ("Could not open file: " ++ arg argv 1 ++ "\n")], .returned EXIT_FAILURE⟩
  else
  let ctx := lib.ctx
  let stream_info := lib.avformat_find_stream_info
  let t2 := t1 ++ [.avformat_find_stream_info stream_info]
  if stream_info < 0 then
    ⟨t2 ++ [.stderr "Could not find stream information\n", .avformat_close_input],
      .returned EXIT_FAILURE⟩
  else
  let video_stream_inx := find_stream ctx AVMEDIA_TYPE_VIDEO
  if video_stream_inx = -1 then
    ⟨t2 ++ [.stderr "Could not find a video stream in the input file\n", .avformat_close_input],
      .returned EXIT_FAILURE⟩
  else
  let audio_stream_inx := find_stream ctx AVMEDIA_TYPE_AUDIO
  if audio_stream_inx = -1 then
    ⟨t2 ++ [.stderr "Could not find an audio stream in the input file\n", .avformat_close_input],
      .returned EXIT_FAILURE⟩
  else
  -- Step 2
  match stream_at ctx video_stream_inx with
  | none => ⟨t2, .out_of_range_read⟩
  | some video_stream =>
  let video_decodec := lib.video_decodec video_stream.codecpar.codec_id
  let t3 := t2 ++ [.avcodec_find_decoder video_stream.codecpar.codec_id video_decodec]
  if video_decodec = false then
    ⟨t3 ++ [.stderr "Invalid video codec\n", .avformat_close_input], .returned EXIT_FAILURE⟩
  else
  match stream_at ctx audio_stream_inx with
  | none => ⟨t3, .out_of_range_read⟩
  | some audio_stream =>
  let audio_decodec := lib.audio_decodec audio_stream.codecpar.codec_id
  let t4 := t3 ++ [.avcodec_find_decoder audio_stream.codecpar.codec_id audio_decodec]
  if audio_decodec = false then
    ⟨t4 ++ [.stderr "Invalid audio codec\n", .avformat_close_input], .returned EXIT_FAILURE⟩
  else
  -- Step 3
  let video_codec_ctx := lib.video_codec_ctx
  let t5 := t4 ++ [.avcodec_alloc_context3 .video video_codec_ctx]
  if video_codec_ctx = false then
    ⟨t5 ++ [.stderr "Could not allocate video codec context\n", .avformat_close_input],
      .returned EXIT_FAILURE⟩
  else
  let audio_codec_ctx := lib.audio_codec_ctx
  let t6 := t5 ++ [.avcodec_alloc_context3 .audio audio_codec_ctx]
  if audio_codec_ctx = false then
    ⟨t6 ++ [.stderr "Could not allocate audio codec context\n",
        .avcodec_free_context .video, .avformat_close_input],
      .returned EXIT_FAILURE⟩
  else
  match stream_at ctx video_stream_inx with
  | none => ⟨t6, .out_of_range_read⟩
  | some _ =>
  let video_ctx_copy_success := lib.video_ctx_copy_success
  let t7 := t6 ++ [.avcodec_parameters_to_context .video video_stream_inx video_ctx_copy_success]
  if video_ctx_copy_success < 0 then
    ⟨t7 ++ [.stderr "Could not copy video codec parameters to codec context\n",
        .avcodec_free_context .video, .avcodec_free_context .audio, .avformat_close_input],
      .returned EXIT_FAILURE⟩
  else
  match stream_at ctx audio_stream_inx with
  | none => ⟨t7, .out_of_range_read⟩
  | some _ =>
  let audio_ctx_copy_success := lib.audio_ctx_copy_success
  let t8 := t7 ++ [.avcodec_parameters_to_context .audio audio_stream_inx audio_ctx_copy_success]
  if audio_ctx_copy_success < 0 then
    ⟨t8 ++ [.stderr "Could not copy audio codec parameters to codec context\n",
        .avcodec_free_context .video, .avcodec_free_context .audio, .avformat_close_input],
      .returned EXIT_FAILURE⟩
  else
  -- Step 4
  let video_decoder_init := lib.video_decoder_init
  let t9 := t8 ++ [.avcodec_open2 .video video_decoder_init]
  if video_decoder_init < 0 then
    ⟨t9 ++ [.stderr "Could not open video decoder\n",
        .avcodec_free_context .video, .avcodec_free_context .audio, .avformat_close_input],
      .returned EXIT_FAILURE⟩
  else
  let audio_decoder_init := lib.audio_decoder_init
  let t10 := t9 ++ [.avcodec_open2 .audio audio_decoder_init]
  if audio_decoder_init < 0 then
    ⟨t10 ++ [.stderr "Could not open audio decoder\n",
        .avcodec_free_context .video, .avcodec_free_context .audio, .avformat_close_input],
      .returned EXIT_FAILURE⟩
  else
  -- Step 5
  let packet := lib.packet
  let t11 := t10 ++ [.av_packet_alloc packet]
  if packet = false then
    ⟨t11 ++ [.stderr "Could not allocate packet\n",
        .avcodec_free_context .video, .avcodec_free_context .audio, .avformat_close_input],
      .returned EXIT_FAILURE⟩
  else
  let frame := lib.frame
  let t12 := t11 ++ [.av_frame_alloc frame]
  if frame = false then
    ⟨t12 ++ [.stderr "Could not allocate frame\n",
        .avcodec_free_context .video, .avcodec_free_context .audio, .avformat_close_input],
      .returned EXIT_FAILURE⟩
  else
  ⟨t12, .returned EXIT_SUCCESS⟩

/-! ## Resources -/

/-- The five things the programs acquire. -/
inductive Resource
  | format_ctx
  | video_codec_ctx
  | audio_codec_ctx
  | packet
  | frame
  deriving DecidableEq, Repr

/-- The codec context of a side. -/
def Resource.codec_ctx : Side → Resource
  | .video => .video_codec_ctx
  | .audio => .audio_codec_ctx

/-- The resource a call acquires, if it does: `avformat_open_input` returning
0 (on failure the library has freed the context), an allocation returning
non-NULL. -/
def Event.acquires : Event → Option Resource
  | .avformat_open_input _ ret => if ret = 0 then some .format_ctx else none
  | .avcodec_alloc_context3 s ok => if ok then some (.codec_ctx s) else none
  | .av_packet_alloc ok => if ok then some .packet else none
  | .av_frame_alloc ok => if ok then some .frame else none
  | _ => none

/-- The resource a call releases, if it is a release call. -/
def Event.releases : Event → Option Resource
  | .avformat_close_input => some .format_ctx
  | .avcodec_free_context s => some (.codec_ctx s)
  | .av_packet_free => some .packet
  | .av_frame_free => some .frame
  | _ => none

/-- Whether a call reads a packet or decodes. -/
def Event.reads_or_decodes : Event → Bool
  | .av_read_frame => true
  | .avcodec_send_packet => true
  | .avcodec_receive_frame => true
  | _ => false

/-- The resources acquired along a trace, in order of acquisition. -/
def acquisitions (t : List Event) : List Resource :=
  t.filterMap Event.acquires

/-- The resources released along a trace, in order of release. -/
def release_order (t : List Event) : List Resource :=
  t.filterMap Event.releases

/-- The effect of one event on the list of live resources. -/
def live_step (held : List Resource) (e : Event) : List Resource :=
  match e.acquires with
  | some r => held ++ [r]
  | none =>
    match e.releases with
    | some r => held.erase r
    | none => held

/-- The resources live after a trace: acquired and not released since. -/
def live (t : List Event) : List Resource :=
  t.foldl live_step []

/-- Every release in the trace is of a resource that is live at that point
(so: acquired before, and not released since), starting from `held`. -/
def releases_ok : List Resource → List Event → Bool
  | _, [] => true
  | held, e :: t =>
    (match e.releases with
      | some r => decide (r ∈ held)
      | none => true) && releases_ok (live_step held e) t

/-- The calls of a trace that are neither a stderr write nor a release: the
library calls of the chain proper. -/
def chain_calls (t : List Event) : List Event :=
  t.filter fun e => e.releases.isNone && !(e matches .stderr _)

/-- The codec ids of the `avcodec_find_decoder` calls of a trace, in order. -/
def decoder_lookups (t : List Event) : List Int :=
  t.filterMap fun e => match e with
    | .avcodec_find_decoder id _ => some id
    | _ => none

/-! ## Specification-side vocabulary -/

/-- Stream `k` is the first stream of type `ty`: it is in range, has that
type, and every stream at a smaller index has another type. -/
def IsFirst (ctx : AVFormatContext) (ty : Int) (k : Nat) : Prop :=
  k < ctx.nb_streams ∧ (ctx.streams k).codecpar.codec_type = ty ∧
    ∀ j, j < k → (ctx.streams j).codecpar.codec_type ≠ ty

/-! ## Exit paths

One constructor per way a run can end (each `return` statement, and each read
of `ctx->streams` that can fall outside the array), with the branch conditions
that lead there and the run that results.  `FFPlayer.ffplayer_path` and
`MainC.mainc_path` show that every run of the embedded `main` is one of these. -/

/-- The exits of steps 0 to 2, the same in both programs: every `return
EXIT_FAILURE` up to the second decoder lookup, and the two reads of
`ctx->streams` at the lookups. -/
inductive EarlyExit (argv : List String) (lib : Library) : Run → Prop
  | usage (h0 : argv.length < 3) :
    EarlyExit argv lib ⟨[.stderr (usage (arg argv 0))], .returned EXIT_FAILURE⟩
  | open_failed (h0 : 3 ≤ argv.length) (h1 : lib.avformat_open_input (arg argv 1) ≠ 0) :
    EarlyExit argv lib
      ⟨[.avformat_open_input (arg argv 1) (lib.avformat_open_input (arg argv 1)),
        .stderr ("Could not open file: " ++ arg argv 1 ++ "\n")],
       .returned EXIT_FAILURE⟩
  | stream_info_failed (h0 : 3 ≤ argv.length) (h1 : lib.avformat_open_input (arg argv 1) = 0)
      (h2 : lib.avformat_find_stream_info < 0) :
    EarlyExit argv lib
      ⟨[.avformat_open_input (arg argv 1) 0,
        .avformat_find_stream_info lib.avformat_find_stream_info,
        .stderr "Could not find stream information\n", .avformat_close_input],
       .returned EXIT_FAILURE⟩
  | no_video (h0 : 3 ≤ argv.length) (h1 : lib.avformat_open_input (arg argv 1) = 0)
      (h2 : 0 ≤ lib.avformat_find_stream_info)
      (h3 : find_stream lib.ctx AVMEDIA_TYPE_VIDEO = -1) :
    EarlyExit argv lib
      ⟨[.avformat_open_input (arg argv 1) 0,
        .avformat_find_stream_info lib.avformat_find_stream_info,
        .stderr "Could not find a video stream in the input file\n", .avformat_close_input],
       .returned EXIT_FAILURE⟩
  | no_audio (h0 : 3 ≤ argv.length) (h1 : lib.avformat_open_input (arg argv 1) = 0)
      (h2 : 0 ≤ lib.avformat_find_stream_info)
      (h3 : find_stream lib.ctx AVMEDIA_TYPE_VIDEO ≠ -1)
      (h4 : find_stream lib.ctx AVMEDIA_TYPE_AUDIO = -1) :
    EarlyExit argv lib
      ⟨[.avformat_open_input (arg argv 1) 0,
        .avformat_find_stream_info lib.avformat_find_stream_info,
        .stderr "Could not find an audio stream in the input file\n", .avformat_close_input],
       .returned EXIT_FAILURE⟩
  | video_read_out_of_range (h0 : 3 ≤ argv.length)
      (h1 : lib.avformat_open_input (arg argv 1) = 0)
      (h2 : 0 ≤ lib.avformat_find_stream_info)
      (h3 : find_stream lib.ctx AVMEDIA_TYPE_VIDEO ≠ -1)
      (h4 : find_stream lib.ctx AVMEDIA_TYPE_AUDIO ≠ -1)
      (hv : stream_at lib.ctx (find_stream lib.ctx AVMEDIA_TYPE_VIDEO) = none) :
    EarlyExit argv lib
      ⟨[.avformat_open_input (arg argv 1) 0,
        .avformat_find_stream_info lib.avformat_find_stream_info],
       .out_of_range_read⟩
  | video_decoder_missing (h0 : 3 ≤ argv.length)
      (h1 : lib.avformat_open_input (arg argv 1) = 0)
      (h2 : 0 ≤ lib.avformat_find_stream_info)
      (h3 : find_stream lib.ctx AVMEDIA_TYPE_VIDEO ≠ -1)
      (h4 : find_stream lib.ctx AVMEDIA_TYPE_AUDIO ≠ -1)
      (vs : AVStream)
      (hv : stream_at lib.ctx (find_stream lib.ctx AVMEDIA_TYPE_VIDEO) = some vs)
      (h5 : lib.video_decodec vs.codecpar.codec_id = false) :
    EarlyExit argv lib
      ⟨[.avformat_open_input (arg argv 1) 0,
        .avformat_find_stream_info lib.avformat_find_stream_info,
        .avcodec_find_decoder vs.codecpar.codec_id false,
        .stderr "Invalid video codec\n", .avformat_close_input],
       .returned EXIT_FAILURE⟩
  | audio_read_out_of_range (h0 : 3 ≤ argv.length)
      (h1 : lib.avformat_open_input (arg argv 1) = 0)
      (h2 : 0 ≤ lib.avformat_find_stream_info)
      (h3 : find_stream lib.ctx AVMEDIA_TYPE_VIDEO ≠ -1)
      (h4 : find_stream lib.ctx AVMEDIA_TYPE_AUDIO ≠ -1)
      (vs : AVStream)
      (hv : stream_at lib.ctx (find_stream lib.ctx AVMEDIA_TYPE_VIDEO) = some vs)
      (h5 : lib.video_decodec vs.codecpar.codec_id = true)
      (ha : stream_at lib.ctx (find_stream lib.ctx AVMEDIA_TYPE_AUDIO) = none) :
    EarlyExit argv lib
      ⟨[.avformat_open_input (arg argv 1) 0,
        .avformat_find_stream_info lib.avformat_find_stream_info,
        .avcodec_find_decoder vs.codecpar.codec_id true],
       .out_of_range_read⟩
  | audio_decoder_missing (h0 : 3 ≤ argv.length)
      (h1 : lib.avformat_open_input (arg argv 1) = 0)
      (h2 : 0 ≤ lib.avformat_find_stream_info)
      (h3 : find_stream lib.ctx AVMEDIA_TYPE_VIDEO ≠ -1)
      (h4 : find_stream lib.ctx AVMEDIA_TYPE_AUDIO ≠ -1)
      (vs : AVStream)
      (hv : stream_at lib.ctx (find_stream lib.ctx AVMEDIA_TYPE_VIDEO) = some vs)
      (h5 : lib.video_decodec vs.codecpar.codec_id = true)
      (as : AVStream)
      (ha : stream_at lib.ctx (find_stream lib.ctx AVMEDIA_TYPE_AUDIO) = some as)
      (h6 : lib.audio_decodec as.codecpar.codec_id = false) :
    EarlyExit argv lib
      ⟨[.avformat_open_input (arg argv 1) 0,
        .avformat_find_stream_info lib.avformat_find_stream_info,
        .avcodec_find_decoder vs.codecpar.codec_id true,
        .avcodec_find_decoder as.codecpar.codec_id false,
        .stderr "Invalid audio codec\n", .avformat_close_input],
       .returned EXIT_FAILURE⟩

/-- The branch conditions under which a run gets past step 2, `vs` and `as`
being the streams read at `video_stream_inx` and `audio_stream_inx`. -/
structure PastStep2 (argv : List String) (lib : Library) (vs as : AVStream) : Prop where
  argc : 3 ≤ argv.length
  file_open : lib.avformat_open_input (arg argv 1) = 0
  stream_info : 0 ≤ lib.avformat_find_stream_info
  video_found : find_stream lib.ctx AVMEDIA_TYPE_VIDEO ≠ -1
  audio_found : find_stream lib.ctx AVMEDIA_TYPE_AUDIO ≠ -1
  video_stream : stream_at lib.ctx (find_stream lib.ctx AVMEDIA_TYPE_VIDEO) = some vs
  video_decodec : lib.video_decodec vs.codecpar.codec_id = true
  audio_stream : stream_at lib.ctx (find_stream lib.ctx AVMEDIA_TYPE_AUDIO) = some as
  audio_decodec : lib.audio_decodec as.codecpar.codec_id = true

/-- The trace of a run that got past step 2, up to there. -/
def step2_trace (argv : List String) (lib : Library) (vs as : AVStream) : List Event :=
  [.avformat_open_input (arg argv 1) 0,
   .avformat_find_stream_info lib.avformat_find_stream_info,
   .avcodec_find_decoder vs.codecpar.codec_id true,
   .avcodec_find_decoder as.codecpar.codec_id true]

/-- The three releases of the later failure branches of main.c, in the order
in which the source issues them. -/
def unwind : List Event :=
  [.avcodec_free_context .video, .avcodec_free_context .audio, .avformat_close_input]

/-- The exit paths of FF-player.c's `main`. -/
inductive FFPlayer.Path (argv : List String) (lib : Library) : Run → Prop
  | early {r : Run} (h : EarlyExit argv lib r) : Path argv lib r
  | success (vs as : AVStream) (h : PastStep2 argv lib vs as) :
    Path argv lib ⟨step2_trace argv lib vs as, .returned EXIT_SUCCESS⟩

/-- The exit paths of main.c's `main`. -/
inductive MainC.Path (argv : List String) (lib : Library) : Run → Prop
  | early {r : Run} (h : EarlyExit argv lib r) : Path argv lib r
  | video_alloc_failed (vs as : AVStream) (h : PastStep2 argv lib vs as)
      (h7 : lib.video_codec_ctx = false) :
    Path argv lib
      ⟨step2_trace argv lib vs as ++
        [.avcodec_alloc_context3 .video false,
         .stderr "Could not allocate video codec context\n", .avformat_close_input],
       .returned EXIT_FAILURE⟩
  | audio_alloc_failed (vs as : AVStream) (h : PastStep2 argv lib vs as)
      (h7 : lib.video_codec_ctx = true) (h8 : lib.audio_codec_ctx = false) :
    Path argv lib
      ⟨step2_trace argv lib vs as ++
        [.avcodec_alloc_context3 .video true, .avcodec_alloc_context3 .audio false,
         .stderr "Could not allocate audio codec context\n",
         .avcodec_free_context .video, .avformat_close_input],
       .returned EXIT_FAILURE⟩
  | video_copy_failed (vs as : AVStream) (h : PastStep2 argv lib vs as)
      (h7 : lib.video_codec_ctx = true) (h8 : lib.audio_codec_ctx = true)
      (h9 : lib.video_ctx_copy_success < 0) :
    Path argv lib
      ⟨step2_trace argv lib vs as ++
        [.avcodec_alloc_context3 .video true, .avcodec_alloc_context3 .audio true,
         .avcodec_parameters_to_context .video (find_stream lib.ctx AVMEDIA_TYPE_VIDEO)
           lib.video_ctx_copy_success,
         .stderr "Could not copy video codec parameters to codec context\n"] ++ unwind,
       .returned EXIT_FAILURE⟩
  | audio_copy_failed (vs as : AVStream) (h : PastStep2 argv lib vs as)
      (h7 : lib.video_codec_ctx = true) (h8 : lib.audio_codec_ctx = true)
      (h9 : 0 ≤ lib.video_ctx_copy_success) (h10 : lib.audio_ctx_copy_success < 0) :
    Path argv lib
      ⟨step2_trace argv lib vs as ++
        [.avcodec_alloc_context3 .video true, .avcodec_alloc_context3 .audio true,
         .avcodec_parameters_to_context .video (find_stream lib.ctx AVMEDIA_TYPE_VIDEO)
           lib.video_ctx_copy_success,
         .avcodec_parameters_to_context .audio (find_stream lib.ctx AVMEDIA_TYPE_AUDIO)
           lib.audio_ctx_copy_success,
         .stderr "Could not copy audio codec parameters to codec context\n"] ++ unwind,
       .returned EXIT_FAILURE⟩
  | video_open_failed (vs as : AVStream) (h : PastStep2 argv lib vs as)
      (h7 : lib.video_codec_ctx = true) (h8 : lib.audio_codec_ctx = true)
      (h9 : 0 ≤ lib.video_ctx_copy_success) (h10 : 0 ≤ lib.audio_ctx_copy_success)
      (h11 : lib.video_decoder_init < 0) :
    Path argv lib
      ⟨step2_trace argv lib vs as ++
        [.avcodec_alloc_context3 .video true, .avcodec_alloc_context3 .audio true,
         .avcodec_parameters_to_context .video (find_stream lib.ctx AVMEDIA_TYPE_VIDEO)
           lib.video_ctx_copy_success,
         .avcodec_parameters_to_context .audio (find_stream lib.ctx AVMEDIA_TYPE_AUDIO)
           lib.audio_ctx_copy_success,
         .avcodec_open2 .video lib.video_decoder_init,
         .stderr "Could not open video decoder\n"] ++ unwind,
       .returned EXIT_FAILURE⟩
  | audio_open_failed (vs as : AVStream) (h : PastStep2 argv lib vs as)
      (h7 : lib.video_codec_ctx = true) (h8 : lib.audio_codec_ctx = true)
      (h9 : 0 ≤ lib.video_ctx_copy_success) (h10 : 0 ≤ lib.audio_ctx_copy_success)
      (h11 : 0 ≤ lib.video_decoder_init) (h12 : lib.audio_decoder_init < 0) :
    Path argv lib
      ⟨step2_trace argv lib vs as ++
        [.avcodec_alloc_context3 .video true, .avcodec_alloc_context3 .audio true,
         .avcodec_parameters_to_context .video (find_stream lib.ctx AVMEDIA_TYPE_VIDEO)
           lib.video_ctx_copy_success,
         .avcodec_parameters_to_context .audio (find_stream lib.ctx AVMEDIA_TYPE_AUDIO)
           lib.audio_ctx_copy_success,
         .avcodec_open2 .video lib.video_decoder_init,
         .avcodec_open2 .audio lib.audio_decoder_init,
         .stderr "Could not open audio decoder\n"] ++ unwind,
       .returned EXIT_FAILURE⟩
  | packet_alloc_failed (vs as : AVStream) (h : PastStep2 argv lib vs as)
      (h7 : lib.video_codec_ctx = true) (h8 : lib.audio_codec_ctx = true)
      (h9 : 0 ≤ lib.video_ctx_copy_success) (h10 : 0 ≤ lib.audio_ctx_copy_success)
      (h11 : 0 ≤ lib.video_decoder_init) (h12 : 0 ≤ lib.audio_decoder_init)
      (h13 : lib.packet = false) :
    Path argv lib
      ⟨step2_trace argv lib vs as ++
        [.avcodec_alloc_context3 .video true, .avcodec_alloc_context3 .audio true,
         .avcodec_parameters_to_context .video (find_stream lib.ctx AVMEDIA_TYPE_VIDEO)
           lib.video_ctx_copy_success,
         .avcodec_parameters_to_context .audio (find_stream lib.ctx AVMEDIA_TYPE_AUDIO)
           lib.audio_ctx_copy_success,
         .avcodec_open2 .video lib.video_decoder_init,
         .avcodec_open2 .audio lib.audio_decoder_init,
         .av_packet_alloc false,
         .stderr "Could not allocate packet\n"] ++ unwind,
       .returned EXIT_FAILURE⟩
  | frame_alloc_failed (vs as : AVStream) (h : PastStep2 argv lib vs as)
      (h7 : lib.video_codec_ctx = true) (h8 : lib.audio_codec_ctx = true)
      (h9 : 0 ≤ lib.video_ctx_copy_success) (h10 : 0 ≤ lib.audio_ctx_copy_success)
      (h11 : 0 ≤ lib.video_decoder_init) (h12 : 0 ≤ lib.audio_decoder_init)
      (h13 : lib.packet = true) (h14 : lib.frame = false) :
    Path argv lib
      ⟨step2_trace argv lib vs as ++
        [.avcodec_alloc_context3 .video true, .avcodec_alloc_context3 .audio true,
         .avcodec_parameters_to_context .video (find_stream lib.ctx AVMEDIA_TYPE_VIDEO)
           lib.video_ctx_copy_success,
         .avcodec_parameters_to_context .audio (find_stream lib.ctx AVMEDIA_TYPE_AUDIO)
           lib.audio_ctx_copy_success,
         .avcodec_open2 .video lib.video_decoder_init,
         .avcodec_open2 .audio lib.audio_decoder_init,
         .av_packet_alloc true, .av_frame_alloc false,
         .stderr "Could not allocate frame\n"] ++ unwind,
       .returned EXIT_FAILURE⟩
  | success (vs as : AVStream) (h : PastStep2 argv lib vs as)
      (h7 : lib.video_codec_ctx = true) (h8 : lib.audio_codec_ctx = true)
      (h9 : 0 ≤ lib.video_ctx_copy_success) (h10 : 0 ≤ lib.audio_ctx_copy_success)
      (h11 : 0 ≤ lib.video_decoder_init) (h12 : 0 ≤ lib.audio_decoder_init)
      (h13 : lib.packet = true) (h14 : lib.frame = true) :
    Path argv lib
      ⟨step2_trace argv lib vs as ++
        [.avcodec_alloc_context3 .video true, .avcodec_alloc_context3 .audio true,
         .avcodec_parameters_to_context .video (find_stream lib.ctx AVMEDIA_TYPE_VIDEO)
           lib.video_ctx_copy_success,
         .avcodec_parameters_to_context .audio (find_stream lib.ctx AVMEDIA_TYPE_AUDIO)
           lib.audio_ctx_copy_success,
         .avcodec_open2 .video lib.video_decoder_init,
         .avcodec_open2 .audio lib.audio_decoder_init,
         .av_packet_alloc true, .av_frame_alloc true],
       .returned EXIT_SUCCESS⟩

/-! ## Concrete inputs -/

/-- An argument vector with the three arguments the usage line asks for. -/
def demo_argv : List String := ["FF-player", "in.mp4", "out.mkv"]

/-- A container with three streams: a subtitle stream (type 3), an H.264
video stream (codec id 27) and an AAC audio stream (codec id 86018). -/
def demo_ctx : AVFormatContext where
  nb_streams := 3
  streams := fun i =>
    if i = 1 then ⟨⟨AVMEDIA_TYPE_VIDEO, 27⟩⟩
    else if i = 2 then ⟨⟨ AVMEDIA_TYPE_AUDIO, 86018⟩⟩
    else ⟨⟨3, 94213⟩⟩

/-- A library in which every call succeeds, on `demo_ctx`. -/
def demo_lib : Library where
  avformat_open_input := fun _ => 0
  avformat_find_stream_info := 0
  ctx := demo_ctx
  video_decodec := fun _ => true
  audio_decodec := fun _ => true
  video_codec_ctx := true
  audio_codec_ctx := true
  video_ctx_copy_success := 0
  audio_ctx_copy_success := 0
  video_decoder_init := 0
  audio_decoder_init := 0
  packet := true
  frame := true

/-- A stream table with `INT_MAX + 2` entries whose only video stream is the
last one, at index `INT_MAX + 1`; every other stream is audio. -/
def wide_ctx : AVFormatContext where
  nb_streams := 2147483649
  streams := fun i =>
    if i = 2147483648 then ⟨⟨AVMEDIA_TYPE_VIDEO, 27⟩⟩ else ⟨⟨ AVMEDIA_TYPE_AUDIO, 86018⟩⟩

/-- A library in which every call succeeds, on `wide_ctx`. -/
def wide_lib : Library :=
  { demo_lib with ctx := wide_ctx }

/-- A stream table with `UINT_MAX` entries whose only video stream is the
last one, at index `UINT_MAX - 1`; there is no audio stream. -/
def full_ctx : AVFormatContext where
  nb_streams := 4294967295
  streams := fun i =>
    if i = 4294967294 then ⟨⟨AVMEDIA_TYPE_VIDEO, 27⟩⟩ else ⟨⟨3, 94213⟩⟩

/-- The library of `demo_lib` except that `av_frame_alloc` returns NULL. -/
def frame_fails_lib : Library :=
  { demo_lib with frame := false }

/-- The library of `demo_lib` except that `av_packet_alloc` returns NULL. -/
def packet_fails_lib : Library :=
  { demo_lib with packet := false }

/-- The release order the spec asks for, on one trace: of any two resources
acquired one after the other and both released, the one acquired later is
released earlier. -/
def ReleasedInReverse (t : List Event) : Prop :=
  ∀ r1 r2 : Resource, List.Sublist [r1, r2] (acquisitions t) →
    r1 ∈ release_order t → r2 ∈ release_order t → List.Sublist [r2, r1] (release_order t)

/-! ## The chain as the spec words it -/

/-- The index of the first stream of type `ty`, if there is one. -/
def first_stream (ctx : AVFormatContext) (ty : Int) : Option Nat :=
  (List.range ctx.nb_streams).find? fun i => decide ((ctx.streams i).codecpar.codec_type = ty)

/-- The codec id of the first stream of type `ty` (0 when there is none). -/
def first_codec_id (ctx : AVFormatContext) (ty : Int) : Int :=
  match first_stream ctx ty with
  | some k => (ctx.streams k).codecpar.codec_id
  | none => 0

/-- The fifteen conditions of the chain, in the order of the steps:
`argc >= 3`; `avformat_open_input` returns exactly 0;
`avformat_find_stream_info` returns `>= 0`; some stream has type video; some
stream has type audio; the two `avcodec_find_decoder` calls return non-NULL;
the two `avcodec_alloc_context3` calls return non-NULL; the two
`avcodec_parameters_to_context` calls return `>= 0`; the two `avcodec_open2`
calls return `>= 0`; `av_packet_alloc` and `av_frame_alloc` return non-NULL. -/
def chain_conditions (argv : List String) (lib : Library) : List Bool :=
  [decide (3 ≤ argv.length),
   decide (lib.avformat_open_input (arg argv 1) = 0),
   decide (0 ≤ lib.avformat_find_stream_info),
   (first_stream lib.ctx AVMEDIA_TYPE_VIDEO).isSome,
   (first_stream lib.ctx AVMEDIA_TYPE_AUDIO).isSome,
   lib.video_decodec (first_codec_id lib.ctx AVMEDIA_TYPE_VIDEO),
   lib.audio_decodec (first_codec_id lib.ctx AVMEDIA_TYPE_AUDIO),
   lib.video_codec_ctx,
   lib.audio_codec_ctx,
   decide (0 ≤ lib.video_ctx_copy_success),
   decide (0 ≤ lib.audio_ctx_copy_success),
   decide (0 ≤ lib.video_decoder_init),
   decide (0 ≤ lib.audio_decoder_init),
   lib.packet,
   lib.frame]

/-- The library call that each of the fifteen steps makes (none for the
command-line check and for the two scans), in the same order. -/
def chain_step_calls (argv : List String) (lib : Library) : List (List Event) :=
  [[],
   [.avformat_open_input (arg argv 1) (lib.avformat_open_input (arg argv 1))],
   [.avformat_find_stream_info lib.avformat_find_stream_info],
   [],
   [],
   [.avcodec_find_decoder (first_codec_id lib.ctx AVMEDIA_TYPE_VIDEO)
      (lib.video_decodec (first_codec_id lib.ctx AVMEDIA_TYPE_VIDEO))],
   [.avcodec_find_decoder (first_codec_id lib.ctx AVMEDIA_TYPE_AUDIO)
      (lib.audio_decodec (first_codec_id lib.ctx AVMEDIA_TYPE_AUDIO))],
   [.avcodec_alloc_context3 .video lib.video_codec_ctx],
   [.avcodec_alloc_context3 .audio lib.audio_codec_ctx],
   [.avcodec_parameters_to_context .video
      (((first_stream lib.ctx AVMEDIA_TYPE_VIDEO).getD 0 : Nat) : Int)
      lib.video_ctx_copy_success],
   [.avcodec_parameters_to_context .audio
      (((first_stream lib.ctx AVMEDIA_TYPE_AUDIO).getD 0 : Nat) : Int)
      lib.audio_ctx_copy_success],
   [.avcodec_open2 .video lib.video_decoder_init],
   [.avcodec_open2 .audio lib.audio_decoder_init],
   [.av_packet_alloc lib.packet],
   [.av_frame_alloc lib.frame]]

/-- The number of steps passed: the length of the longest run of conditions
that hold, from the first on. -/
def passed_steps (argv : List String) (lib : Library) : Nat :=
  ((chain_conditions argv lib).takeWhile id).length

/-! # Theorems -/


/-! ## The conversion and the scan -/

theorem int_of_unsigned_of_le_INT_MAX {k : Nat} (h : k ≤ INT_MAX) :
    int_of_unsigned k = (k : Int) := by
  unfold INT_MAX at h
  have h1 : k % 2 ^ 32 = k := Nat.mod_eq_of_lt (by omega)
  unfold int_of_unsigned
  rw [h1, if_pos (by omega)]

theorem int_of_unsigned_ne_neg_one {k : Nat} (h : k < UINT_MAX) :
    int_of_unsigned k ≠ -1 := by
  unfold UINT_MAX at h
  have h1 : k % 2 ^ 32 = k := Nat.mod_eq_of_lt (by omega)
  unfold int_of_unsigned
  rw [h1]
  split_ifs <;> omega

theorem scan_loop_none (ctx : AVFormatContext) (ty : Int) :
    ∀ (n i : Nat), (∀ j, j < n → (ctx.streams (i + j)).codecpar.codec_type ≠ ty) →
      scan_loop ctx ty n i = -1 := by
  intro n
  induction n with
  | zero => intro i _; rfl
  | succ n ih =>
    intro i h
    have h0 := h 0 (Nat.succ_pos n)
    rw [Nat.add_zero] at h0
    rw [scan_loop, if_neg h0]
    apply ih
    intro j hj
    have := h (j + 1) (Nat.succ_lt_succ hj)
    rwa [show i + (j + 1) = i + 1 + j by omega] at this

theorem scan_loop_first (ctx : AVFormatContext) (ty : Int) :
    ∀ (k n i : Nat), k < n → (ctx.streams (i + k)).codecpar.codec_type = ty →
      (∀ j, j < k → (ctx.streams (i + j)).codecpar.codec_type ≠ ty) →
      scan_loop ctx ty n i = int_of_unsigned (i + k) := by
  intro k
  induction k with
  | zero =>
    intro n i hn hk _
    obtain ⟨m, rfl⟩ : ∃ m, n = m + 1 := ⟨n - 1, by omega⟩
    rw [Nat.add_zero] at hk
    rw [scan_loop, if_pos hk, Nat.add_zero]
  | succ k ih =>
    intro n i hn hk hlt
    obtain ⟨m, rfl⟩ : ∃ m, n = m + 1 := ⟨n - 1, by omega⟩
    have h0 := hlt 0 (Nat.succ_pos k)
    rw [Nat.add_zero] at h0
    rw [scan_loop, if_neg h0, ih m (i + 1) (by omega)]
    · rw [show i + 1 + k = i + (k + 1) by omega]
    · rwa [show i + 1 + k = i + (k + 1) by omega]
    · intro j hj
      have := hlt (j + 1) (Nat.succ_lt_succ hj)
      rwa [show i + (j + 1) = i + 1 + j by omega] at this

theorem find_stream_none {ctx : AVFormatContext} {ty : Int}
    (h : ∀ j, j < ctx.nb_streams → (ctx.streams j).codecpar.codec_type ≠ ty) :
    find_stream ctx ty = -1 := by
  apply scan_loop_none
  intro j hj
  rw [Nat.zero_add]
  exact h j hj

theorem find_stream_first {ctx : AVFormatContext} {ty : Int} {k : Nat}
    (h : IsFirst ctx ty k) : find_stream ctx ty = int_of_unsigned k := by
  have := scan_loop_first ctx ty k ctx.nb_streams 0 h.1
    (by rw [Nat.zero_add]; exact h.2.1)
    (by intro j hj; rw [Nat.zero_add]; exact h.2.2 j hj)
  rwa [Nat.zero_add] at this

theorem exists_first {ctx : AVFormatContext} {ty : Int}
    (h : ∃ i, i < ctx.nb_streams ∧ (ctx.streams i).codecpar.codec_type = ty) :
    ∃ k, IsFirst ctx ty k := by
  classical
  refine ⟨Nat.find h, (Nat.find_spec h).1, (Nat.find_spec h).2, ?_⟩
  intro j hj hty
  have hmin := Nat.find_min h hj
  exact hmin ⟨lt_trans hj (Nat.find_spec h).1, hty⟩

theorem IsFirst.unique {ctx : AVFormatContext} {ty : Int} {k l : Nat}
    (hk : IsFirst ctx ty k) (hl : IsFirst ctx ty l) : k = l := by
  rcases Nat.lt_trichotomy k l with h | h | h
  · exact absurd hk.2.1 (hl.2.2 k h)
  · exact h
  · exact absurd hl.2.1 (hk.2.2 l h)

/-- With at most `INT_MAX` streams, a scan that found something left the
index of the first stream of the type, and that index can be read. -/
theorem find_stream_found {ctx : AVFormatContext} {ty : Int}
    (hnb : ctx.nb_streams ≤ INT_MAX) (h : find_stream ctx ty ≠ -1) :
    ∃ k, IsFirst ctx ty k ∧ find_stream ctx ty = (k : Int) ∧
      stream_at ctx (find_stream ctx ty) = some (ctx.streams k) := by
  by_cases hex : ∃ i, i < ctx.nb_streams ∧ (ctx.streams i).codecpar.codec_type = ty
  · obtain ⟨k, hk⟩ := exists_first hex
    have hfs : find_stream ctx ty = (k : Int) := by
      rw [find_stream_first hk, int_of_unsigned_of_le_INT_MAX (le_trans hk.1.le hnb)]
    refine ⟨k, hk, hfs, ?_⟩
    rw [hfs, stream_at, if_pos ⟨Int.natCast_nonneg k, by exact_mod_cast hk.1⟩, Int.toNat_natCast]
  · exfalso
    apply h
    apply find_stream_none
    intro j hj hty
    exact hex ⟨j, hj, hty⟩

theorem FFPlayer.ffplayer_path (argv : List String) (lib : Library) :
    FFPlayer.Path argv lib (FFPlayer.main argv lib) := by
  unfold FFPlayer.main
  dsimp only
  by_cases h0 : (argv.length : Int) < 3
  · rw [if_pos h0]
    exact .early (.usage (by exact_mod_cast h0))
  rw [if_neg h0]
  have h0' : 3 ≤ argv.length := by
    have : ¬ argv.length < 3 := by exact_mod_cast h0
    omega
  by_cases h1 : lib.avformat_open_input (arg argv 1) ≠ 0
  · rw [if_pos h1]
    exact .early (.open_failed h0' h1)
  rw [if_neg h1]
  have h1' : lib.avformat_open_input (arg argv 1) = 0 := not_not.mp h1
  rw [h1']
  by_cases h2 : lib.avformat_find_stream_info < 0
  · rw [if_pos h2]
    exact .early (.stream_info_failed h0' h1' h2)
  rw [if_neg h2]
  have h2' : 0 ≤ lib.avformat_find_stream_info := not_lt.mp h2
  by_cases h3 : find_stream lib.ctx AVMEDIA_TYPE_VIDEO = -1
  · rw [if_pos h3]
    exact .early (.no_video h0' h1' h2' h3)
  rw [if_neg h3]
  by_cases h4 : find_stream lib.ctx AVMEDIA_TYPE_AUDIO = -1
  · rw [if_pos h4]
    exact .early (.no_audio h0' h1' h2' h3 h4)
  rw [if_neg h4]
  rcases hv : stream_at lib.ctx (find_stream lib.ctx AVMEDIA_TYPE_VIDEO) with _ | vs
  · exact .early (.video_read_out_of_range h0' h1' h2' h3 h4 hv)
  dsimp only
  by_cases h5 : lib.video_decodec vs.codecpar.codec_id = false
  · rw [if_pos h5, h5]
    exact .early (.video_decoder_missing h0' h1' h2' h3 h4 vs hv h5)
  rw [if_neg h5]
  have h5' : lib.video_decodec vs.codecpar.codec_id = true := by simpa using h5
  rw [h5']
  rcases ha : stream_at lib.ctx (find_stream lib.ctx AVMEDIA_TYPE_AUDIO) with _ | as
  · exact .early (.audio_read_out_of_range h0' h1' h2' h3 h4 vs hv h5' ha)
  dsimp only
  by_cases h6 : lib.audio_decodec as.codecpar.codec_id = false
  · rw [if_pos h6, h6]
    exact .early (.audio_decoder_missing h0' h1' h2' h3 h4 vs hv h5' as ha h6)
  rw [if_neg h6]
  have h6' : lib.audio_decodec as.codecpar.codec_id = true := by simpa using h6
  rw [h6']
  exact .success vs as ⟨h0', h1', h2', h3, h4, hv, h5', ha, h6'⟩


theorem MainC.mainc_path (argv : List String) (lib : Library) :
    MainC.Path argv lib (MainC.main argv lib) := by
  unfold MainC.main
  dsimp only
  by_cases h0 : (argv.length : Int) < 3
  · rw [if_pos h0]
    exact .early (.usage (by exact_mod_cast h0))
  rw [if_neg h0]
  have h0' : 3 ≤ argv.length := by
    have : ¬ argv.length < 3 := by exact_mod_cast h0
    omega
  by_cases h1 : lib.avformat_open_input (arg argv 1) ≠ 0
  · rw [if_pos h1]
    exact .early (.open_failed h0' h1)
  rw [if_neg h1]
  have h1' : lib.avformat_open_input (arg argv 1) = 0 := not_not.mp h1
  rw [h1']
  by_cases h2 : lib.avformat_find_stream_info < 0
  · rw [if_pos h2]
    exact .early (.stream_info_failed h0' h1' h2)
  rw [if_neg h2]
  have h2' : 0 ≤ lib.avformat_find_stream_info := not_lt.mp h2
  by_cases h3 : find_stream lib.ctx AVMEDIA_TYPE_VIDEO = -1
  · rw [if_pos h3]
    exact .early (.no_video h0' h1' h2' h3)
  rw [if_neg h3]
  by_cases h4 : find_stream lib.ctx AVMEDIA_TYPE_AUDIO = -1
  · rw [if_pos h4]
    exact .early (.no_audio h0' h1' h2' h3 h4)
  rw [if_neg h4]
  rcases hv : stream_at lib.ctx (find_stream lib.ctx AVMEDIA_TYPE_VIDEO) with _ | vs
  · exact .early (.video_read_out_of_range h0' h1' h2' h3 h4 hv)
  dsimp only
  by_cases h5 : lib.video_decodec vs.codecpar.codec_id = false
  · rw [if_pos h5, h5]
    exact .early (.video_decoder_missing h0' h1' h2' h3 h4 vs hv h5)
  rw [if_neg h5]
  have h5' : lib.video_decodec vs.codecpar.codec_id = true := by simpa using h5
  rw [h5']
  rcases ha : stream_at lib.ctx (find_stream lib.ctx AVMEDIA_TYPE_AUDIO) with _ | as
  · exact .early (.audio_read_out_of_range h0' h1' h2' h3 h4 vs hv h5' ha)
  dsimp only
  by_cases h6 : lib.audio_decodec as.codecpar.codec_id = false
  · rw [if_pos h6, h6]
    exact .early (.audio_decoder_missing h0' h1' h2' h3 h4 vs hv h5' as ha h6)
  rw [if_neg h6]
  have h6' : lib.audio_decodec as.codecpar.codec_id = true := by simpa using h6
  rw [h6']
  have hp : PastStep2 argv lib vs as := ⟨h0', h1', h2', h3, h4, hv, h5', ha, h6'⟩
  by_cases h7 : lib.video_codec_ctx = false
  · rw [if_pos h7, h7]
    exact .video_alloc_failed vs as hp h7
  rw [if_neg h7]
  have h7' : lib.video_codec_ctx = true := by simpa using h7
  rw [h7']
  by_cases h8 : lib.audio_codec_ctx = false
  · rw [if_pos h8, h8]
    exact .audio_alloc_failed vs as hp h7' h8
  rw [if_neg h8]
  have h8' : lib.audio_codec_ctx = true := by simpa using h8
  rw [h8']
  by_cases h9 : lib.video_ctx_copy_success < 0
  · rw [if_pos h9]
    exact .video_copy_failed vs as hp h7' h8' h9
  rw [if_neg h9]
  have h9' : 0 ≤ lib.video_ctx_copy_success := not_lt.mp h9
  by_cases h10 : lib.audio_ctx_copy_success < 0
  · rw [if_pos h10]
    exact .audio_copy_failed vs as hp h7' h8' h9' h10
  rw [if_neg h10]
  have h10' : 0 ≤ lib.audio_ctx_copy_success := not_lt.mp h10
  by_cases h11 : lib.video_decoder_init < 0
  · rw [if_pos h11]
    exact .video_open_failed vs as hp h7' h8' h9' h10' h11
  rw [if_neg h11]
  have h11' : 0 ≤ lib.video_decoder_init := not_lt.mp h11
  by_cases h12 : lib.audio_decoder_init < 0
  · rw [if_pos h12]
    exact .audio_open_failed vs as hp h7' h8' h9' h10' h11' h12
  rw [if_neg h12]
  have h12' : 0 ≤ lib.audio_decoder_init := not_lt.mp h12
  by_cases h13 : lib.packet = false
  · rw [if_pos h13, h13]
    exact .packet_alloc_failed vs as hp h7' h8' h9' h10' h11' h12' h13
  rw [if_neg h13]
  have h13' : lib.packet = true := by simpa using h13
  rw [h13']
  by_cases h14 : lib.frame = false
  · rw [if_pos h14, h14]
    exact .frame_alloc_failed vs as hp h7' h8' h9' h10' h11' h12' h13' h14
  rw [if_neg h14]
  have h14' : lib.frame = true := by simpa using h14
  rw [h14']
  exact .success vs as hp h7' h8' h9' h10' h11' h12' h13' h14'

/-! ## Runs with at most `INT_MAX` streams -/

theorem EarlyExit.in_range {argv : List String} {lib : Library} {r : Run}
    (hnb : lib.ctx.nb_streams ≤ INT_MAX) (h : EarlyExit argv lib r) :
    r.outcome ≠ .out_of_range_read := by
  cases h with
  | video_read_out_of_range h0 h1 h2 h3 h4 hv =>
    obtain ⟨v, -, -, hsv⟩ := find_stream_found hnb h3
    rw [hsv] at hv
    exact absurd hv (by simp)
  | audio_read_out_of_range h0 h1 h2 h3 h4 vs hv h5 ha =>
    obtain ⟨a, -, -, hsa⟩ := find_stream_found hnb h4
    rw [hsa] at ha
    exact absurd ha (by simp)
  | _ => simp

theorem MainC.mainc_in_range (argv : List String) (lib : Library)
    (hnb : lib.ctx.nb_streams ≤ INT_MAX) :
    (MainC.main argv lib).outcome ≠ .out_of_range_read := by
  have hp := MainC.mainc_path argv lib
  generalize MainC.main argv lib = r at hp
  cases hp with
  | early h => exact h.in_range hnb
  | _ => simp

theorem FFPlayer.ffplayer_in_range (argv : List String) (lib : Library)
    (hnb : lib.ctx.nb_streams ≤ INT_MAX) :
    (FFPlayer.main argv lib).outcome ≠ .out_of_range_read := by
  have hp := FFPlayer.ffplayer_path argv lib
  generalize FFPlayer.main argv lib = r at hp
  cases hp with
  | early h => exact h.in_range hnb
  | _ => simp

theorem find_stream_of_first {ctx : AVFormatContext} {ty : Int} {k : Nat}
    (hnb : ctx.nb_streams ≤ INT_MAX) (hk : IsFirst ctx ty k) :
    find_stream ctx ty = (k : Int) ∧
      stream_at ctx (find_stream ctx ty) = some (ctx.streams k) := by
  have hfs : find_stream ctx ty = (k : Int) := by
    rw [find_stream_first hk, int_of_unsigned_of_le_INT_MAX (le_trans hk.1.le hnb)]
  refine ⟨hfs, ?_⟩
  rw [hfs, stream_at, if_pos ⟨Int.natCast_nonneg k, by exact_mod_cast hk.1⟩, Int.toNat_natCast]

theorem find_stream_ne_of_first {ctx : AVFormatContext} {ty : Int} {k : Nat}
    (hnb : ctx.nb_streams ≤ INT_MAX) (hk : IsFirst ctx ty k) :
    find_stream ctx ty ≠ -1 := by
  rw [(find_stream_of_first hnb hk).1]
  have := Int.natCast_nonneg k
  omega

theorem PastStep2.streams_eq {argv : List String} {lib : Library} {vs as : AVStream}
    (h : PastStep2 argv lib vs as) (hnb : lib.ctx.nb_streams ≤ INT_MAX) {v a : Nat}
    (hv : IsFirst lib.ctx AVMEDIA_TYPE_VIDEO v) (ha : IsFirst lib.ctx AVMEDIA_TYPE_AUDIO a) :
    vs = lib.ctx.streams v ∧ as = lib.ctx.streams a := by
  have h1 := h.video_stream
  have h2 := h.audio_stream
  rw [(find_stream_of_first hnb hv).2] at h1
  rw [(find_stream_of_first hnb ha).2] at h2
  exact ⟨(Option.some.inj h1).symm, (Option.some.inj h2).symm⟩

/-- The early exits that are still possible once the file is open, probed, and
has a first video stream `v` and a first audio stream `a`: a decoder is
missing. -/
theorem EarlyExit.decoder_missing {argv : List String} {lib : Library} {r : Run}
    (h : EarlyExit argv lib r) (hnb : lib.ctx.nb_streams ≤ INT_MAX) {v a : Nat}
    (hv : IsFirst lib.ctx AVMEDIA_TYPE_VIDEO v) (ha : IsFirst lib.ctx AVMEDIA_TYPE_AUDIO a)
    (h0 : 3 ≤ argv.length) (h1 : lib.avformat_open_input (arg argv 1) = 0)
    (h2 : 0 ≤ lib.avformat_find_stream_info) :
    (lib.video_decodec (lib.ctx.streams v).codecpar.codec_id = false ∧
      r = ⟨[.avformat_open_input (arg argv 1) 0,
            .avformat_find_stream_info lib.avformat_find_stream_info,
            .avcodec_find_decoder (lib.ctx.streams v).codecpar.codec_id false,
            .stderr "Invalid video codec\n", .avformat_close_input],
           .returned EXIT_FAILURE⟩) ∨
    (lib.video_decodec (lib.ctx.streams v).codecpar.codec_id = true ∧
      lib.audio_decodec (lib.ctx.streams a).codecpar.codec_id = false ∧
      r = ⟨[.avformat_open_input (arg argv 1) 0,
            .avformat_find_stream_info lib.avformat_find_stream_info,
            .avcodec_find_decoder (lib.ctx.streams v).codecpar.codec_id true,
            .avcodec_find_decoder (lib.ctx.streams a).codecpar.codec_id false,
            .stderr "Invalid audio codec\n", .avformat_close_input],
           .returned EXIT_FAILURE⟩) := by
  have hfv := find_stream_of_first hnb hv
  have hfa := find_stream_of_first hnb ha
  have hnv := find_stream_ne_of_first hnb hv
  have hna := find_stream_ne_of_first hnb ha
  cases h with
  | usage h0' => omega
  | open_failed _ h1' => exact absurd h1 h1'
  | stream_info_failed _ _ h2' => omega
  | no_video _ _ _ h3 => exact absurd h3 hnv
  | no_audio _ _ _ _ h4 => exact absurd h4 hna
  | video_read_out_of_range _ _ _ _ _ hv' =>
    rw [hfv.2] at hv'
    exact absurd hv' (by simp)
  | video_decoder_missing _ _ _ _ _ vs hv' h5 =>
    rw [hfv.2] at hv'
    cases hv'
    exact Or.inl ⟨h5, rfl⟩
  | audio_read_out_of_range _ _ _ _ _ vs hv' h5 ha' =>
    rw [hfa.2] at ha'
    exact absurd ha' (by simp)
  | audio_decoder_missing _ _ _ _ _ vs hv' h5 as ha' h6 =>
    rw [hfv.2] at hv'
    rw [hfa.2] at ha'
    cases hv'
    cases ha'
    exact Or.inr ⟨h5, h6, rfl⟩

/-! ## The exit paths determine the run of FF-player.c -/

theorem not_argc_lt {argv : List String} (h0 : 3 ≤ argv.length) :
    ¬ ((argv.length : Int) < 3) := by
  intro h
  have : argv.length < 3 := by exact_mod_cast h
  omega

theorem EarlyExit.ffplayer_eq {argv : List String} {lib : Library} {r : Run}
    (h : EarlyExit argv lib r) : FFPlayer.main argv lib = r := by
  unfold FFPlayer.main
  dsimp only
  cases h with
  | usage h0 =>
    rw [if_pos (by exact_mod_cast h0)]
  | open_failed h0 h1 =>
    rw [if_neg (not_argc_lt h0), if_pos h1]
    rfl
  | stream_info_failed h0 h1 h2 =>
    rw [if_neg (not_argc_lt h0), if_neg (not_not.mpr h1), if_pos h2, h1]
    rfl
  | no_video h0 h1 h2 h3 =>
    rw [if_neg (not_argc_lt h0), if_neg (not_not.mpr h1), if_neg (not_lt.mpr h2), if_pos h3, h1]
    rfl
  | no_audio h0 h1 h2 h3 h4 =>
    rw [if_neg (not_argc_lt h0), if_neg (not_not.mpr h1), if_neg (not_lt.mpr h2), if_neg h3,
      if_pos h4, h1]
    rfl
  | video_read_out_of_range h0 h1 h2 h3 h4 hv =>
    rw [if_neg (not_argc_lt h0), if_neg (not_not.mpr h1), if_neg (not_lt.mpr h2), if_neg h3,
      if_neg h4, hv, h1]
    rfl
  | video_decoder_missing h0 h1 h2 h3 h4 vs hv h5 =>
    rw [if_neg (not_argc_lt h0), if_neg (not_not.mpr h1), if_neg (not_lt.mpr h2), if_neg h3,
      if_neg h4, hv, h1]
    dsimp only
    rw [if_pos h5, h5]
    rfl
  | audio_read_out_of_range h0 h1 h2 h3 h4 vs hv h5 ha =>
    rw [if_neg (not_argc_lt h0), if_neg (not_not.mpr h1), if_neg (not_lt.mpr h2), if_neg h3,
      if_neg h4, hv, h1]
    dsimp only
    rw [if_neg (by rw [h5]; decide), ha, h5]
    rfl
  | audio_decoder_missing h0 h1 h2 h3 h4 vs hv h5 as ha h6 =>
    rw [if_neg (not_argc_lt h0), if_neg (not_not.mpr h1), if_neg (not_lt.mpr h2), if_neg h3,
      if_neg h4, hv, h1]
    dsimp only
    rw [if_neg (by rw [h5]; decide), ha, h5]
    dsimp only
    rw [if_pos h6, h6]
    rfl

theorem PastStep2.ffplayer_success {argv : List String} {lib : Library} {vs as : AVStream}
    (h : PastStep2 argv lib vs as) :
    FFPlayer.main argv lib = ⟨step2_trace argv lib vs as, .returned EXIT_SUCCESS⟩ := by
  unfold FFPlayer.main
  dsimp only
  rw [if_neg (not_argc_lt h.argc), if_neg (not_not.mpr h.file_open),
    if_neg (not_lt.mpr h.stream_info), if_neg h.video_found, if_neg h.audio_found,
    h.video_stream, h.file_open]
  dsimp only
  rw [if_neg (by rw [h.video_decodec]; decide), h.audio_stream, h.video_decodec]
  dsimp only
  rw [if_neg (by rw [h.audio_decodec]; decide), h.audio_decodec]
  rfl

theorem EarlyExit.outcome_ne_success {argv : List String} {lib : Library} {r : Run}
    (h : EarlyExit argv lib r) : r.outcome ≠ .returned EXIT_SUCCESS := by
  cases h <;> simp [EXIT_SUCCESS, EXIT_FAILURE]

theorem EarlyExit.no_alloc {argv : List String} {lib : Library} {r : Run}
    (h : EarlyExit argv lib r) (s : Side) (ok : Bool) :
    Event.avcodec_alloc_context3 s ok ∉ r.trace := by
  cases h <;> simp

/-! ## Acquisitions and releases along the exit paths of main.c -/

theorem EarlyExit.resources {argv : List String} {lib : Library} {r : Run}
    (h : EarlyExit argv lib r) :
    (acquisitions r.trace = [] ∧ release_order r.trace = []) ∨
    (acquisitions r.trace = [.format_ctx] ∧ release_order r.trace = [.format_ctx]) ∨
    (r.outcome = .out_of_range_read) := by
  cases h with
  | usage => exact Or.inl ⟨rfl, rfl⟩
  | open_failed h0 h1 =>
    left
    simp [acquisitions, release_order, Event.acquires, Event.releases, h1]
  | video_read_out_of_range => exact Or.inr (Or.inr rfl)
  | audio_read_out_of_range => exact Or.inr (Or.inr rfl)
  | _ => exact Or.inr (Or.inl ⟨rfl, rfl⟩)

/-- What a failing run of main.c has acquired and released, in order: one of
five shapes. -/
theorem MainC.failure_resources (argv : List String) (lib : Library)
    (hfail : (MainC.main argv lib).outcome = .returned EXIT_FAILURE) :
    (acquisitions (MainC.main argv lib).trace = [] ∧
      release_order (MainC.main argv lib).trace = []) ∨
    (acquisitions (MainC.main argv lib).trace = [.format_ctx] ∧
      release_order (MainC.main argv lib).trace = [.format_ctx]) ∨
    (acquisitions (MainC.main argv lib).trace = [.format_ctx, .video_codec_ctx] ∧
      release_order (MainC.main argv lib).trace = [.video_codec_ctx, .format_ctx]) ∨
    (acquisitions (MainC.main argv lib).trace =
        [.format_ctx, .video_codec_ctx, .audio_codec_ctx] ∧
      release_order (MainC.main argv lib).trace =
        [.video_codec_ctx, .audio_codec_ctx, .format_ctx]) ∨
    (lib.frame = false ∧
      acquisitions (MainC.main argv lib).trace =
        [.format_ctx, .video_codec_ctx, .audio_codec_ctx, .packet] ∧
      release_order (MainC.main argv lib).trace =
        [.video_codec_ctx, .audio_codec_ctx, .format_ctx]) := by
  have hp := MainC.mainc_path argv lib
  generalize MainC.main argv lib = r at hp hfail
  cases hp with
  | early h =>
    rcases h.resources with h1 | h1 | h1
    · exact Or.inl h1
    · exact Or.inr (Or.inl h1)
    · rw [h1] at hfail
      exact absurd hfail (by simp)
  | video_alloc_failed vs as h => exact Or.inr (Or.inl ⟨rfl, rfl⟩)
  | audio_alloc_failed vs as h => exact Or.inr (Or.inr (Or.inl ⟨rfl, rfl⟩))
  | frame_alloc_failed vs as h h7 h8 h9 h10 h11 h12 h13 h14 =>
    exact Or.inr (Or.inr (Or.inr (Or.inr ⟨h14, rfl, rfl⟩)))
  | success => exact absurd hfail (by simp [EXIT_SUCCESS, EXIT_FAILURE])
  | _ => exact Or.inr (Or.inr (Or.inr (Or.inl ⟨rfl, rfl⟩)))

/-! ## The first stream of a type -/

theorem first_stream_of_first {ctx : AVFormatContext} {ty : Int} {k : Nat}
    (hk : IsFirst ctx ty k) : first_stream ctx ty = some k := by
  unfold first_stream
  rw [List.find?_range_eq_some]
  refine ⟨by simpa using hk.2.1, List.mem_range.mpr hk.1, ?_⟩
  intro j hj
  simpa using hk.2.2 j hj

theorem first_stream_none {ctx : AVFormatContext} {ty : Int}
    (h : ∀ j, j < ctx.nb_streams → (ctx.streams j).codecpar.codec_type ≠ ty) :
    first_stream ctx ty = none := by
  unfold first_stream
  rw [List.find?_range_eq_none]
  intro j hj
  simpa using h j hj

theorem first_stream_of_not_found {ctx : AVFormatContext} {ty : Int}
    (hnb : ctx.nb_streams ≤ INT_MAX) (h : find_stream ctx ty = -1) :
    first_stream ctx ty = none := by
  apply first_stream_none
  intro j hj hty
  obtain ⟨k, hk⟩ := exists_first ⟨j, hj, hty⟩
  exact find_stream_ne_of_first hnb hk h

theorem first_stream_of_found {ctx : AVFormatContext} {ty : Int}
    (hnb : ctx.nb_streams ≤ INT_MAX) (h : find_stream ctx ty ≠ -1) :
    ∃ k, first_stream ctx ty = some k ∧ find_stream ctx ty = (k : Int) ∧
      stream_at ctx (find_stream ctx ty) = some (ctx.streams k) := by
  obtain ⟨k, hk, hfs, hs⟩ := find_stream_found hnb h
  exact ⟨k, first_stream_of_first hk, hfs, hs⟩

theorem EarlyExit.mainc_eq {argv : List String} {lib : Library} {r : Run}
    (h : EarlyExit argv lib r) : MainC.main argv lib = r := by
  have hp := MainC.mainc_path argv lib
  have hne := h.outcome_ne_success
  rw [← h.ffplayer_eq] at hne ⊢
  generalize MainC.main argv lib = m at hp
  cases hp with
  | early h' => exact h'.ffplayer_eq.symm
  | _ vs as hps =>
    rw [hps.ffplayer_success] at hne
    exact absurd rfl hne

/-! ## The wide stream table -/

theorem wide_ctx_first_video : IsFirst wide_ctx AVMEDIA_TYPE_VIDEO 2147483648 := by
  refine ⟨by decide, by decide, ?_⟩
  intro j hj
  have hne : j ≠ 2147483648 := Nat.ne_of_lt hj
  simp [wide_ctx, hne, AVMEDIA_TYPE_VIDEO, AVMEDIA_TYPE_AUDIO]

theorem wide_ctx_first_audio : IsFirst wide_ctx AVMEDIA_TYPE_AUDIO 0 :=
  ⟨by decide, by decide, fun j hj => absurd hj (Nat.not_lt_zero j)⟩

theorem wide_ctx_video_inx : find_stream wide_ctx AVMEDIA_TYPE_VIDEO = -2147483648 := by
  rw [find_stream_first wide_ctx_first_video]
  decide

theorem wide_ctx_audio_inx : find_stream wide_ctx AVMEDIA_TYPE_AUDIO = 0 := by
  rw [find_stream_first wide_ctx_first_audio]
  decide

/-! ## The release check rejects what it should -/

theorem releases_ok_rejects_double_release :
    releases_ok [] [.avformat_open_input "in.mp4" 0, .avformat_close_input,
      .avformat_close_input] = false := by
  decide

theorem releases_ok_rejects_release_after_failed_open :
    releases_ok [] [.avformat_open_input "in.mp4" (-2), .avformat_close_input] = false := by
  decide

theorem releases_ok_rejects_unacquired :
    releases_ok [] [.avformat_open_input "in.mp4" 0, .avcodec_free_context .video] = false := by
  decide

/-! ## The scan: C8, C10, C4 -/

/-- C8. For every `nb_streams` that fits a 32-bit unsigned, the index a scan
leaves is `-1` exactly when no stream in `[0, nb_streams)` has the searched
codec type, the wrap of the index above `INT_MAX` included. -/
theorem sentinel_exact (ctx : AVFormatContext) (ty : Int)
    (hnb : ctx.nb_streams ≤ UINT_MAX) :
    find_stream ctx ty = -1 ↔
      ∀ i, i < ctx.nb_streams → (ctx.streams i).codecpar.codec_type ≠ ty := by
  constructor
  · intro h i hi hty
    obtain ⟨k, hk⟩ := exists_first ⟨i, hi, hty⟩
    rw [find_stream_first hk] at h
    exact int_of_unsigned_ne_neg_one (lt_of_lt_of_le hk.1 hnb) h
  · exact find_stream_none

/-- C8 at `full_ctx`: `UINT_MAX` streams, the first video stream at index
`UINT_MAX - 1`, whose conversion to `int` is `-2`. -/
theorem sentinel_exact_witness :
    full_ctx.nb_streams ≤ UINT_MAX ∧
    (find_stream full_ctx AVMEDIA_TYPE_VIDEO = -1 ↔
      ∀ i, i < full_ctx.nb_streams →
        (full_ctx.streams i).codecpar.codec_type ≠ AVMEDIA_TYPE_VIDEO) :=
  ⟨by decide, sentinel_exact full_ctx AVMEDIA_TYPE_VIDEO (by decide)⟩

/-- C10. With `nb_streams <= INT_MAX`, when both scans succeeded the two
indices are in `[0, nb_streams)`, the streams read there have type video and
audio, the indices differ, and no run of either program reads `ctx->streams`
out of range. -/
theorem indices_valid (argv : List String) (lib : Library)
    (hnb : lib.ctx.nb_streams ≤ INT_MAX)
    (hv : find_stream lib.ctx AVMEDIA_TYPE_VIDEO ≠ -1)
    (ha : find_stream lib.ctx AVMEDIA_TYPE_AUDIO ≠ -1) :
    0 ≤ find_stream lib.ctx AVMEDIA_TYPE_VIDEO ∧
    find_stream lib.ctx AVMEDIA_TYPE_VIDEO < lib.ctx.nb_streams ∧
    0 ≤ find_stream lib.ctx AVMEDIA_TYPE_AUDIO ∧
    find_stream lib.ctx AVMEDIA_TYPE_AUDIO < lib.ctx.nb_streams ∧
    (∃ s, stream_at lib.ctx (find_stream lib.ctx AVMEDIA_TYPE_VIDEO) = some s ∧
      s.codecpar.codec_type = AVMEDIA_TYPE_VIDEO) ∧
    (∃ s, stream_at lib.ctx (find_stream lib.ctx AVMEDIA_TYPE_AUDIO) = some s ∧
      s.codecpar.codec_type = AVMEDIA_TYPE_AUDIO) ∧
    find_stream lib.ctx AVMEDIA_TYPE_VIDEO ≠ find_stream lib.ctx AVMEDIA_TYPE_AUDIO ∧
    (MainC.main argv lib).outcome ≠ .out_of_range_read ∧
    (FFPlayer.main argv lib).outcome ≠ .out_of_range_read := by
  obtain ⟨v, hfv, hve, hsv⟩ := find_stream_found hnb hv
  obtain ⟨a, hfa, hae, hsa⟩ := find_stream_found hnb ha
  refine ⟨?_, ?_, ?_, ?_, ⟨_, hsv, hfv.2.1⟩, ⟨_, hsa, hfa.2.1⟩, ?_, ?_, ?_⟩
  · rw [hve]; exact Int.natCast_nonneg v
  · rw [hve]; exact_mod_cast hfv.1
  · rw [hae]; exact Int.natCast_nonneg a
  · rw [hae]; exact_mod_cast hfa.1
  · rw [hve, hae]
    intro h
    have hva : v = a := by exact_mod_cast h
    have h1 := hfv.2.1
    rw [hva, hfa.2.1] at h1
    exact absurd h1 (by decide)
  · exact MainC.mainc_in_range argv lib hnb
  · exact FFPlayer.ffplayer_in_range argv lib hnb

/-- C10 at `demo_lib`: three streams, video at index 1 and audio at index 2. -/
theorem indices_valid_witness :
    demo_lib.ctx.nb_streams ≤ INT_MAX ∧
    find_stream demo_lib.ctx AVMEDIA_TYPE_VIDEO ≠ -1 ∧
    find_stream demo_lib.ctx AVMEDIA_TYPE_AUDIO ≠ -1 ∧
    find_stream demo_lib.ctx AVMEDIA_TYPE_VIDEO = 1 ∧
    find_stream demo_lib.ctx AVMEDIA_TYPE_AUDIO = 2 ∧
    (MainC.main demo_argv demo_lib).outcome ≠ .out_of_range_read ∧
    (FFPlayer.main demo_argv demo_lib).outcome ≠ .out_of_range_read :=
  have h := indices_valid demo_argv demo_lib (by decide) (by decide) (by decide)
  ⟨by decide, by decide, by decide, by decide, by decide, h.2.2.2.2.2.2.2.1, h.2.2.2.2.2.2.2.2⟩

/-- C4. With `nb_streams <= INT_MAX` a scan selects the first match: when some
stream has the searched type, the index left is the least `k < nb_streams`
whose stream has that type; and once the file is open and probed and both
types are present, the decoder lookups of both programs are made with the
codec ids of exactly the first video and the first audio stream (the second
lookup being made when the first returned non-NULL). -/
theorem first_match (argv : List String) (lib : Library)
    (hnb : lib.ctx.nb_streams ≤ INT_MAX) :
    (∀ ty, (∃ i, i < lib.ctx.nb_streams ∧ (lib.ctx.streams i).codecpar.codec_type = ty) →
      ∃ k, k < lib.ctx.nb_streams ∧ (lib.ctx.streams k).codecpar.codec_type = ty ∧
        (∀ j, j < k → (lib.ctx.streams j).codecpar.codec_type ≠ ty) ∧
        find_stream lib.ctx ty = (k : Int)) ∧
    (∀ v a, IsFirst lib.ctx AVMEDIA_TYPE_VIDEO v → IsFirst lib.ctx AVMEDIA_TYPE_AUDIO a →
      3 ≤ argv.length → lib.avformat_open_input (arg argv 1) = 0 →
      0 ≤ lib.avformat_find_stream_info →
      decoder_lookups (MainC.main argv lib).trace =
        (if lib.video_decodec (lib.ctx.streams v).codecpar.codec_id = true
          then [(lib.ctx.streams v).codecpar.codec_id, (lib.ctx.streams a).codecpar.codec_id]
          else [(lib.ctx.streams v).codecpar.codec_id]) ∧
      decoder_lookups (FFPlayer.main argv lib).trace =
        (if lib.video_decodec (lib.ctx.streams v).codecpar.codec_id = true
          then [(lib.ctx.streams v).codecpar.codec_id, (lib.ctx.streams a).codecpar.codec_id]
          else [(lib.ctx.streams v).codecpar.codec_id])) := by
  constructor
  · intro ty hex
    obtain ⟨k, hk⟩ := exists_first hex
    exact ⟨k, hk.1, hk.2.1, hk.2.2, (find_stream_of_first hnb hk).1⟩
  · intro v a hv ha h0 h1 h2
    have early : ∀ r, EarlyExit argv lib r → decoder_lookups r.trace =
        (if lib.video_decodec (lib.ctx.streams v).codecpar.codec_id = true
          then [(lib.ctx.streams v).codecpar.codec_id, (lib.ctx.streams a).codecpar.codec_id]
          else [(lib.ctx.streams v).codecpar.codec_id]) := by
      intro r h
      rcases h.decoder_missing hnb hv ha h0 h1 h2 with ⟨h5, rfl⟩ | ⟨h5, h6, rfl⟩
      · simp [h5, decoder_lookups]
      · simp [h5, decoder_lookups]
    have late : ∀ vs as, PastStep2 argv lib vs as → ∀ t : List Event,
        decoder_lookups t = [] → decoder_lookups (step2_trace argv lib vs as ++ t) =
        (if lib.video_decodec (lib.ctx.streams v).codecpar.codec_id = true
          then [(lib.ctx.streams v).codecpar.codec_id, (lib.ctx.streams a).codecpar.codec_id]
          else [(lib.ctx.streams v).codecpar.codec_id]) := by
      intro vs as h t ht
      obtain ⟨rfl, rfl⟩ := h.streams_eq hnb hv ha
      have h5 := h.video_decodec
      unfold decoder_lookups at ht ⊢
      rw [List.filterMap_append, ht]
      simp [h5, step2_trace]
    constructor
    · have hp := MainC.mainc_path argv lib
      generalize MainC.main argv lib = r at hp
      cases hp with
      | early h => exact early _ h
      | success vs as h => exact late vs as h _ (by simp [decoder_lookups])
      | _ vs as h => exact late vs as h _ (by simp [decoder_lookups, unwind])
    · have hp := FFPlayer.ffplayer_path argv lib
      generalize FFPlayer.main argv lib = r at hp
      cases hp with
      | early h => exact early _ h
      | success vs as h =>
        have := late vs as h [] rfl
        rwa [List.append_nil] at this

/-- C4 at `demo_lib`. -/
theorem first_match_witness :
    demo_lib.ctx.nb_streams ≤ INT_MAX ∧
    find_stream demo_lib.ctx AVMEDIA_TYPE_VIDEO = 1 ∧
    find_stream demo_lib.ctx AVMEDIA_TYPE_AUDIO = 2 ∧
    decoder_lookups (MainC.main demo_argv demo_lib).trace = [27, 86018] ∧
    decoder_lookups (FFPlayer.main demo_argv demo_lib).trace = [27, 86018] :=
  have h := (first_match demo_argv demo_lib (by decide)).2 1 2
    ⟨by decide, by decide, by decide⟩ ⟨by decide, by decide, by decide⟩
    (by decide) (by decide) (by decide)
  ⟨by decide, by decide, by decide, h.1, h.2⟩

/-! ## The command-line gate: C5 -/

/-- C5. In both programs a run with `argc < 3` is the usage line on stderr
and `return EXIT_FAILURE`, nothing else: no library call, no resource.  With
`argc >= 3` the first event of the run is `avformat_open_input` on `argv[1]`,
and the run is the same for every other argument vector with `argc >= 3` and
the same `argv[1]`: `argv[2]` (and `argv[0]`, and `argc` itself) is not read. -/
theorem command_line_gate (argv argv' : List String) (lib : Library) :
    (argv.length < 3 →
      FFPlayer.main argv lib = ⟨[.stderr (usage (arg argv 0))], .returned EXIT_FAILURE⟩ ∧
      MainC.main argv lib = ⟨[.stderr (usage (arg argv 0))], .returned EXIT_FAILURE⟩ ∧
      live (FFPlayer.main argv lib).trace = [] ∧ live (MainC.main argv lib).trace = []) ∧
    (3 ≤ argv.length →
      (FFPlayer.main argv lib).trace.head? =
        some (.avformat_open_input (arg argv 1) (lib.avformat_open_input (arg argv 1))) ∧
      (MainC.main argv lib).trace.head? =
        some (.avformat_open_input (arg argv 1) (lib.avformat_open_input (arg argv 1))) ∧
      (3 ≤ argv'.length → arg argv' 1 = arg argv 1 →
        FFPlayer.main argv' lib = FFPlayer.main argv lib ∧
        MainC.main argv' lib = MainC.main argv lib)) := by
  constructor
  · intro h0
    have h0' : (argv.length : Int) < 3 := by exact_mod_cast h0
    have hf : FFPlayer.main argv lib =
        ⟨[.stderr (usage (arg argv 0))], .returned EXIT_FAILURE⟩ := by
      unfold FFPlayer.main
      dsimp only
      rw [if_pos h0']
    have hm : MainC.main argv lib =
        ⟨[.stderr (usage (arg argv 0))], .returned EXIT_FAILURE⟩ := by
      unfold MainC.main
      dsimp only
      rw [if_pos h0']
    refine ⟨hf, hm, ?_, ?_⟩
    · rw [hf]; rfl
    · rw [hm]; rfl
  · intro h0
    have hge : ∀ l : List String, 3 ≤ l.length → ¬ ((l.length : Int) < 3) := by
      intro l hl h
      have : l.length < 3 := by exact_mod_cast h
      omega
    have early : ∀ r, EarlyExit argv lib r → r.trace.head? =
        some (.avformat_open_input (arg argv 1) (lib.avformat_open_input (arg argv 1))) := by
      intro r h
      cases h with
      | usage h0' => omega
      | open_failed => rfl
      | _ _ h1 => rw [h1]; rfl
    refine ⟨?_, ?_, ?_⟩
    · have hp := FFPlayer.ffplayer_path argv lib
      generalize FFPlayer.main argv lib = r at hp
      cases hp with
      | early h => exact early _ h
      | success vs as h => rw [h.file_open]; rfl
    · have hp := MainC.mainc_path argv lib
      generalize MainC.main argv lib = r at hp
      cases hp with
      | early h => exact early _ h
      | _ vs as h => rw [h.file_open]; rfl
    · intro h0' harg
      constructor
      · unfold FFPlayer.main
        dsimp only
        rw [if_neg (hge argv h0), if_neg (hge argv' h0'), harg]
      · unfold MainC.main
        dsimp only
        rw [if_neg (hge argv h0), if_neg (hge argv' h0'), harg]

/-- C5 at two concrete argument vectors: one too short, one that differs from
`demo_argv` in `argv[0]`, `argv[2]` and `argc`. -/
theorem command_line_gate_witness :
    MainC.main ["FF-player", "in.mp4"] demo_lib =
      ⟨[.stderr "Usage: FF-player t1.c <videofile.mp4> <outputfile>\n"],
        .returned EXIT_FAILURE⟩ ∧
    MainC.main ["a.out", "in.mp4", "elsewhere", "more"] demo_lib =
      MainC.main demo_argv demo_lib :=
  ⟨((command_line_gate ["FF-player", "in.mp4"] [] demo_lib).1 (by decide)).2.1,
   (((command_line_gate demo_argv ["a.out", "in.mp4", "elsewhere", "more"] demo_lib).2
      (by decide)).2.2 (by decide) rfl).2⟩

/-! ## The two programs side by side: C7 -/

/-- C7. FF-player.c is main.c cut after step 2.  A run of FF-player.c that
does not return `EXIT_SUCCESS` is, event for event and with the same outcome,
the run of main.c on the same input; a run of FF-player.c that returns
`EXIT_SUCCESS` is a prefix of the run of main.c, which goes on with the first
`avcodec_alloc_context3` call of step 3.  FF-player.c returns `EXIT_FAILURE`
exactly when main.c returns `EXIT_FAILURE` without having reached step 3, and
whenever main.c returns `EXIT_SUCCESS` so does FF-player.c. -/
theorem prefix_simulation (argv : List String) (lib : Library) :
    ((FFPlayer.main argv lib).outcome ≠ .returned EXIT_SUCCESS →
      MainC.main argv lib = FFPlayer.main argv lib) ∧
    ((FFPlayer.main argv lib).outcome = .returned EXIT_SUCCESS →
      ∃ rest, (MainC.main argv lib).trace = (FFPlayer.main argv lib).trace ++ rest ∧
        rest.head? = some (.avcodec_alloc_context3 .video lib.video_codec_ctx)) ∧
    ((FFPlayer.main argv lib).outcome = .returned EXIT_FAILURE ↔
      ((MainC.main argv lib).outcome = .returned EXIT_FAILURE ∧
        ∀ s ok, Event.avcodec_alloc_context3 s ok ∉ (MainC.main argv lib).trace)) ∧
    ((MainC.main argv lib).outcome = .returned EXIT_SUCCESS →
      (FFPlayer.main argv lib).outcome = .returned EXIT_SUCCESS) := by
  have late : ∀ (vs as : AVStream) (t : List Event) (o : Outcome),
      PastStep2 argv lib vs as →
      t.head? = some (.avcodec_alloc_context3 .video lib.video_codec_ctx) →
      ∀ r : Run, r = ⟨step2_trace argv lib vs as ++ t, o⟩ →
      ((FFPlayer.main argv lib).outcome ≠ .returned EXIT_SUCCESS →
        r = FFPlayer.main argv lib) ∧
      ((FFPlayer.main argv lib).outcome = .returned EXIT_SUCCESS →
        ∃ rest, r.trace = (FFPlayer.main argv lib).trace ++ rest ∧
          rest.head? = some (.avcodec_alloc_context3 .video lib.video_codec_ctx)) ∧
      ((FFPlayer.main argv lib).outcome = .returned EXIT_FAILURE ↔
        (r.outcome = .returned EXIT_FAILURE ∧
          ∀ s ok, Event.avcodec_alloc_context3 s ok ∉ r.trace)) ∧
      (r.outcome = .returned EXIT_SUCCESS →
        (FFPlayer.main argv lib).outcome = .returned EXIT_SUCCESS) := by
    intro vs as t o h ht r hr
    subst hr
    rw [h.ffplayer_success]
    refine ⟨fun hne => absurd rfl hne, fun _ => ⟨t, rfl, ht⟩, ?_, fun _ => rfl⟩
    constructor
    · intro hf
      exact absurd hf (by simp [EXIT_SUCCESS, EXIT_FAILURE])
    · rintro ⟨-, hno⟩
      exfalso
      apply hno .video lib.video_codec_ctx
      cases t with
      | nil => simp at ht
      | cons e t =>
        simp only [List.head?_cons, Option.some.injEq] at ht
        subst ht
        simp
  have hp := MainC.mainc_path argv lib
  generalize MainC.main argv lib = r at hp
  cases hp with
  | early h =>
    rw [h.ffplayer_eq]
    refine ⟨fun _ => rfl, fun hs => absurd hs h.outcome_ne_success, ?_,
      fun hs => absurd hs h.outcome_ne_success⟩
    constructor
    · intro hf
      exact ⟨hf, h.no_alloc⟩
    · exact fun hf => hf.1
  | video_alloc_failed vs as h h7 =>
    exact late vs as _ _ h (by rw [h7]; rfl) _ rfl
  | audio_alloc_failed vs as h h7 =>
    exact late vs as _ _ h (by rw [h7]; rfl) _ rfl
  | success vs as h h7 =>
    exact late vs as _ _ h (by rw [h7]; rfl) _ rfl
  | _ vs as h h7 =>
    exact late vs as _ _ h (by rw [h7]; rfl) _
      (congrArg (fun t => Run.mk t _) (List.append_assoc _ _ _))

/-! ## What is live at exit: C6, C9 -/

/-- C6. A run of either program that returns `EXIT_SUCCESS` contains no
release call and no packet-read or decode call, and what is live at its exit
is everything it acquired: the format context for FF-player.c; the format
context, the two codec contexts, the packet and the frame for main.c. -/
theorem success_keeps_everything (argv : List String) (lib : Library) :
    ((FFPlayer.main argv lib).outcome = .returned EXIT_SUCCESS →
      (∀ e ∈ (FFPlayer.main argv lib).trace,
        e.releases = none ∧ e.reads_or_decodes = false) ∧
      live (FFPlayer.main argv lib).trace = [.format_ctx]) ∧
    ((MainC.main argv lib).outcome = .returned EXIT_SUCCESS →
      (∀ e ∈ (MainC.main argv lib).trace,
        e.releases = none ∧ e.reads_or_decodes = false) ∧
      live (MainC.main argv lib).trace =
        [.format_ctx, .video_codec_ctx, .audio_codec_ctx, .packet, .frame]) := by
  constructor
  · have hp := FFPlayer.ffplayer_path argv lib
    generalize FFPlayer.main argv lib = r at hp
    intro hs
    cases hp with
    | early h => exact absurd hs h.outcome_ne_success
    | success vs as h =>
      constructor
      · simp [step2_trace, Event.releases, Event.reads_or_decodes]
      · rfl
  · have hp := MainC.mainc_path argv lib
    generalize MainC.main argv lib = r at hp
    intro hs
    cases hp with
    | early h => exact absurd hs h.outcome_ne_success
    | success vs as h =>
      constructor
      · simp [step2_trace, Event.releases, Event.reads_or_decodes]
      · rfl
    | _ => simp [EXIT_SUCCESS, EXIT_FAILURE] at hs

/-- C6 at `demo_lib`, where both programs return `EXIT_SUCCESS`. -/
theorem success_keeps_everything_witness :
    live (FFPlayer.main demo_argv demo_lib).trace = [.format_ctx] ∧
    live (MainC.main demo_argv demo_lib).trace =
      [.format_ctx, .video_codec_ctx, .audio_codec_ctx, .packet, .frame] :=
  ⟨((success_keeps_everything demo_argv demo_lib).1 (by decide)).2,
   ((success_keeps_everything demo_argv demo_lib).2 (by decide)).2⟩

/-- C9. On every run of either program each release is of a resource that is
live at that point: acquired earlier on that run and not released since.  So
nothing is released twice and nothing is released that was not acquired; in
particular `avformat_close_input` is not called when `avformat_open_input`
failed. -/
theorem release_discipline (argv : List String) (lib : Library) :
    releases_ok [] (FFPlayer.main argv lib).trace = true ∧
    releases_ok [] (MainC.main argv lib).trace = true ∧
    (release_order (FFPlayer.main argv lib).trace).Nodup ∧
    (release_order (MainC.main argv lib).trace).Nodup ∧
    (lib.avformat_open_input (arg argv 1) ≠ 0 →
      Event.avformat_close_input ∉ (FFPlayer.main argv lib).trace ∧
      Event.avformat_close_input ∉ (MainC.main argv lib).trace) := by
  have early : ∀ r, EarlyExit argv lib r →
      releases_ok [] r.trace = true ∧ (release_order r.trace).Nodup ∧
      (lib.avformat_open_input (arg argv 1) ≠ 0 → Event.avformat_close_input ∉ r.trace) := by
    intro r h
    cases h with
    | usage => exact ⟨rfl, by simp [release_order, Event.releases], fun _ => by simp⟩
    | open_failed h0 h1 =>
      refine ⟨?_, by simp [release_order, Event.releases], fun _ => by simp⟩
      simp [releases_ok, live_step, Event.acquires, Event.releases, h1]
    | _ _ h1 =>
      exact ⟨rfl, by simp [release_order, Event.releases], fun hne => absurd h1 hne⟩
  have hf := FFPlayer.ffplayer_path argv lib
  have hm := MainC.mainc_path argv lib
  generalize FFPlayer.main argv lib = rf at hf
  generalize MainC.main argv lib = rm at hm
  have hF : releases_ok [] rf.trace = true ∧ (release_order rf.trace).Nodup ∧
      (lib.avformat_open_input (arg argv 1) ≠ 0 → Event.avformat_close_input ∉ rf.trace) := by
    cases hf with
    | early h => exact early _ h
    | success vs as h =>
      exact ⟨rfl, by simp [release_order, step2_trace, Event.releases],
        fun hne => absurd h.file_open hne⟩
  have hM : releases_ok [] rm.trace = true ∧ (release_order rm.trace).Nodup ∧
      (lib.avformat_open_input (arg argv 1) ≠ 0 → Event.avformat_close_input ∉ rm.trace) := by
    cases hm with
    | early h => exact early _ h
    | _ vs as h =>
      exact ⟨rfl, by simp [release_order, step2_trace, unwind, Event.releases,
        Resource.codec_ctx], fun hne => absurd h.file_open hne⟩
  exact ⟨hF.1, hM.1, hF.2.1, hM.2.1, fun hne => ⟨hF.2.2 hne, hM.2.2 hne⟩⟩

/-! ## Teardown on failure: C1, C2 -/

/-- C1, at the failing input `frame_fails_lib` (every call succeeds but
`av_frame_alloc`): main.c returns `EXIT_FAILURE` having acquired the format
context, both codec contexts and the packet, and having released the two
codec contexts and the format context; the packet is still live. -/
theorem packet_live_after_frame_failure :
    (MainC.main demo_argv frame_fails_lib).outcome = .returned EXIT_FAILURE ∧
    acquisitions (MainC.main demo_argv frame_fails_lib).trace =
      [.format_ctx, .video_codec_ctx, .audio_codec_ctx, .packet] ∧
    release_order (MainC.main demo_argv frame_fails_lib).trace =
      [.video_codec_ctx, .audio_codec_ctx, .format_ctx] ∧
    live (MainC.main demo_argv frame_fails_lib).trace = [.packet] := by
  decide

/-- Every failing exit of main.c other than the frame-allocation one leaves
nothing live; the frame-allocation one leaves the packet. -/
theorem MainC.live_at_failure (argv : List String) (lib : Library)
    (hfail : (MainC.main argv lib).outcome = .returned EXIT_FAILURE) :
    live (MainC.main argv lib).trace = [] ∨
    (lib.video_codec_ctx = true ∧ lib.audio_codec_ctx = true ∧ lib.packet = true ∧
      lib.frame = false ∧ live (MainC.main argv lib).trace = [.packet]) := by
  have hp := MainC.mainc_path argv lib
  generalize MainC.main argv lib = r at hp hfail
  cases hp with
  | early h =>
    left
    cases h with
    | open_failed h0 h1 => simp [live, live_step, Event.acquires, Event.releases, h1]
    | video_read_out_of_range => exact absurd hfail (by simp)
    | audio_read_out_of_range => exact absurd hfail (by simp)
    | _ => rfl
  | frame_alloc_failed vs as h h7 h8 h9 h10 h11 h12 h13 h14 =>
    exact Or.inr ⟨h7, h8, h13, h14, rfl⟩
  | success => exact absurd hfail (by simp [EXIT_SUCCESS, EXIT_FAILURE])
  | _ => exact Or.inl rfl

/-- C2 is false as stated, at `packet_fails_lib` (every call succeeds but
`av_packet_alloc`): the run returns `EXIT_FAILURE`, the video codec context is
acquired before the audio one and also released before it. -/
theorem not_released_in_reverse :
    (MainC.main demo_argv packet_fails_lib).outcome = .returned EXIT_FAILURE ∧
    acquisitions (MainC.main demo_argv packet_fails_lib).trace =
      [.format_ctx, .video_codec_ctx, .audio_codec_ctx] ∧
    release_order (MainC.main demo_argv packet_fails_lib).trace =
      [.video_codec_ctx, .audio_codec_ctx, .format_ctx] ∧
    ¬ ReleasedInReverse (MainC.main demo_argv packet_fails_lib).trace := by
  refine ⟨by decide, by decide, by decide, ?_⟩
  intro h
  have h1 := h .video_codec_ctx .audio_codec_ctx (by decide) (by decide) (by decide)
  revert h1
  decide

/-- C2 as amended. At every exit of main.c that returns `EXIT_FAILURE` the
releases come in the fixed order video codec context, audio codec context,
format context.  So of two resources acquired one after the other and both
released, the later acquired is released earlier (the format context is
released last), except for the pair of codec contexts, which are released in
the order of their acquisition. -/
theorem release_order_fixed (argv : List String) (lib : Library)
    (hfail : (MainC.main argv lib).outcome = .returned EXIT_FAILURE) :
    List.Sublist (release_order (MainC.main argv lib).trace)
      [.video_codec_ctx, .audio_codec_ctx, .format_ctx] ∧
    ∀ r1 r2 : Resource, List.Sublist [r1, r2] (acquisitions (MainC.main argv lib).trace) →
      r1 ∈ release_order (MainC.main argv lib).trace →
      r2 ∈ release_order (MainC.main argv lib).trace →
      if r1 = .video_codec_ctx ∧ r2 = .audio_codec_ctx
        then List.Sublist [r1, r2] (release_order (MainC.main argv lib).trace)
        else List.Sublist [r2, r1] (release_order (MainC.main argv lib).trace) := by
  rcases MainC.failure_resources argv lib hfail with
    ⟨ha, hr⟩ | ⟨ha, hr⟩ | ⟨ha, hr⟩ | ⟨ha, hr⟩ | ⟨-, ha, hr⟩ <;>
  · rw [ha, hr]
    refine ⟨by decide, ?_⟩
    intro r1 r2
    cases r1 <;> cases r2 <;> decide

/-- C2 as amended, at `packet_fails_lib`. -/
theorem release_order_fixed_witness :
    (MainC.main demo_argv packet_fails_lib).outcome = .returned EXIT_FAILURE ∧
    List.Sublist (release_order (MainC.main demo_argv packet_fails_lib).trace)
      [.video_codec_ctx, .audio_codec_ctx, .format_ctx] :=
  ⟨by decide, (release_order_fixed demo_argv packet_fails_lib (by decide)).1⟩

/-! ## The chain: C3 -/

/-- C3 as amended. With `nb_streams <= INT_MAX`, main.c returns `EXIT_SUCCESS`
if and only if all fifteen conditions of the chain hold, and `EXIT_FAILURE`
otherwise; and the library calls of the run are exactly those of the steps up
to and including the first one whose condition is false (all of them when
none is), so no call of a later step is made. -/
theorem chain_to_first_failure (argv : List String) (lib : Library)
    (hnb : lib.ctx.nb_streams ≤ INT_MAX) :
    ((MainC.main argv lib).outcome = .returned EXIT_SUCCESS ↔
      ∀ c ∈ chain_conditions argv lib, c = true) ∧
    ((MainC.main argv lib).outcome ≠ .returned EXIT_SUCCESS →
      (MainC.main argv lib).outcome = .returned EXIT_FAILURE) ∧
    chain_calls (MainC.main argv lib).trace =
      ((chain_step_calls argv lib).take (passed_steps argv lib + 1)).flatten := by
  have hp := MainC.mainc_path argv lib
  generalize MainC.main argv lib = r at hp
  cases hp with
  | early h =>
    cases h with
    | usage h0 =>
      have h0' : ¬ 3 ≤ argv.length := by omega
      simp [chain_conditions, chain_step_calls, passed_steps, chain_calls, EXIT_SUCCESS,
        EXIT_FAILURE, h0']
    | open_failed h0 h1 =>
      simp [chain_conditions, chain_step_calls, passed_steps, chain_calls, EXIT_SUCCESS,
        EXIT_FAILURE, Event.releases, h0, h1]
    | stream_info_failed h0 h1 h2 =>
      simp [chain_conditions, chain_step_calls, passed_steps, chain_calls, EXIT_SUCCESS,
        EXIT_FAILURE, Event.releases, h0, h1, h2]
    | no_video h0 h1 h2 h3 =>
      have hv := first_stream_of_not_found hnb h3
      simp [chain_conditions, chain_step_calls, passed_steps, chain_calls, EXIT_SUCCESS,
        EXIT_FAILURE, Event.releases, h0, h1, h2, hv]
    | no_audio h0 h1 h2 h3 h4 =>
      obtain ⟨v, hfv, -, -⟩ := first_stream_of_found hnb h3
      have ha := first_stream_of_not_found hnb h4
      simp [chain_conditions, chain_step_calls, passed_steps, chain_calls, EXIT_SUCCESS,
        EXIT_FAILURE, Event.releases, first_codec_id, step2_trace, unwind, h0, h1, h2, hfv, ha]
    | video_read_out_of_range h0 h1 h2 h3 h4 hv =>
      obtain ⟨v, -, -, hsv⟩ := first_stream_of_found hnb h3
      rw [hsv] at hv
      exact absurd hv (by simp)
    | video_decoder_missing h0 h1 h2 h3 h4 vs hv h5 =>
      obtain ⟨v, hfv, -, hsv⟩ := first_stream_of_found hnb h3
      obtain ⟨a, hfa, -, -⟩ := first_stream_of_found hnb h4
      rw [hsv] at hv
      cases hv
      simp [chain_conditions, chain_step_calls, passed_steps, chain_calls, EXIT_SUCCESS,
        EXIT_FAILURE, Event.releases, first_codec_id, step2_trace, unwind, h0, h1, h2, hfv, hfa, h5]
    | audio_read_out_of_range h0 h1 h2 h3 h4 vs hv h5 ha =>
      obtain ⟨a, -, -, hsa⟩ := first_stream_of_found hnb h4
      rw [hsa] at ha
      exact absurd ha (by simp)
    | audio_decoder_missing h0 h1 h2 h3 h4 vs hv h5 as ha h6 =>
      obtain ⟨v, hfv, -, hsv⟩ := first_stream_of_found hnb h3
      obtain ⟨a, hfa, -, hsa⟩ := first_stream_of_found hnb h4
      rw [hsv] at hv
      rw [hsa] at ha
      cases hv
      cases ha
      simp [chain_conditions, chain_step_calls, passed_steps, chain_calls, EXIT_SUCCESS,
        EXIT_FAILURE, Event.releases, first_codec_id, step2_trace, unwind, h0, h1, h2, hfv, hfa, h5, h6]
  | video_alloc_failed vs as h h7 =>
    obtain ⟨v, hfv, hve, hsv⟩ := first_stream_of_found hnb h.video_found
    obtain ⟨a, hfa, hae, hsa⟩ := first_stream_of_found hnb h.audio_found
    have hvs := h.video_stream
    have has := h.audio_stream
    rw [hsv] at hvs
    rw [hsa] at has
    cases hvs
    cases has
    have h0 := h.argc
    have h1 := h.file_open
    have h2 := h.stream_info
    have h5 := h.video_decodec
    have h6 := h.audio_decodec
    simp [chain_conditions, chain_step_calls, passed_steps, chain_calls, EXIT_SUCCESS,
        EXIT_FAILURE, Event.releases, first_codec_id, step2_trace, unwind,
        h0, h1, h2, hfv, hfa, hve, hae, h5, h6, h7]
  | audio_alloc_failed vs as h h7 h8 =>
    obtain ⟨v, hfv, hve, hsv⟩ := first_stream_of_found hnb h.video_found
    obtain ⟨a, hfa, hae, hsa⟩ := first_stream_of_found hnb h.audio_found
    have hvs := h.video_stream
    have has := h.audio_stream
    rw [hsv] at hvs
    rw [hsa] at has
    cases hvs
    cases has
    have h0 := h.argc
    have h1 := h.file_open
    have h2 := h.stream_info
    have h5 := h.video_decodec
    have h6 := h.audio_decodec
    simp [chain_conditions, chain_step_calls, passed_steps, chain_calls, EXIT_SUCCESS,
        EXIT_FAILURE, Event.releases, first_codec_id, step2_trace, unwind,
        h0, h1, h2, hfv, hfa, hve, hae, h5, h6, h7, h8]
  | video_copy_failed vs as h h7 h8 h9 =>
    obtain ⟨v, hfv, hve, hsv⟩ := first_stream_of_found hnb h.video_found
    obtain ⟨a, hfa, hae, hsa⟩ := first_stream_of_found hnb h.audio_found
    have hvs := h.video_stream
    have has := h.audio_stream
    rw [hsv] at hvs
    rw [hsa] at has
    cases hvs
    cases has
    have h0 := h.argc
    have h1 := h.file_open
    have h2 := h.stream_info
    have h5 := h.video_decodec
    have h6 := h.audio_decodec
    simp [chain_conditions, chain_step_calls, passed_steps, chain_calls, EXIT_SUCCESS,
        EXIT_FAILURE, Event.releases, first_codec_id, step2_trace, unwind,
        h0, h1, h2, hfv, hfa, hve, hae, h5, h6, h7, h8, h9]
  | audio_copy_failed vs as h h7 h8 h9 h10 =>
    obtain ⟨v, hfv, hve, hsv⟩ := first_stream_of_found hnb h.video_found
    obtain ⟨a, hfa, hae, hsa⟩ := first_stream_of_found hnb h.audio_found
    have hvs := h.video_stream
    have has := h.audio_stream
    rw [hsv] at hvs
    rw [hsa] at has
    cases hvs
    cases has
    have h0 := h.argc
    have h1 := h.file_open
    have h2 := h.stream_info
    have h5 := h.video_decodec
    have h6 := h.audio_decodec
    simp [chain_conditions, chain_step_calls, passed_steps, chain_calls, EXIT_SUCCESS,
        EXIT_FAILURE, Event.releases, first_codec_id, step2_trace, unwind,
        h0, h1, h2, hfv, hfa, hve, hae, h5, h6, h7, h8, h9, h10]
  | video_open_failed vs as h h7 h8 h9 h10 h11 =>
    obtain ⟨v, hfv, hve, hsv⟩ := first_stream_of_found hnb h.video_found
    obtain ⟨a, hfa, hae, hsa⟩ := first_stream_of_found hnb h.audio_found
    have hvs := h.video_stream
    have has := h.audio_stream
    rw [hsv] at hvs
    rw [hsa] at has
    cases hvs
    cases has
    have h0 := h.argc
    have h1 := h.file_open
    have h2 := h.stream_info
    have h5 := h.video_decodec
    have h6 := h.audio_decodec
    simp [chain_conditions, chain_step_calls, passed_steps, chain_calls, EXIT_SUCCESS,
        EXIT_FAILURE, Event.releases, first_codec_id, step2_trace, unwind,
        h0, h1, h2, hfv, hfa, hve, hae, h5, h6, h7, h8, h9, h10, h11]
  | audio_open_failed vs as h h7 h8 h9 h10 h11 h12 =>
    obtain ⟨v, hfv, hve, hsv⟩ := first_stream_of_found hnb h.video_found
    obtain ⟨a, hfa, hae, hsa⟩ := first_stream_of_found hnb h.audio_found
    have hvs := h.video_stream
    have has := h.audio_stream
    rw [hsv] at hvs
    rw [hsa] at has
    cases hvs
    cases has
    have h0 := h.argc
    have h1 := h.file_open
    have h2 := h.stream_info
    have h5 := h.video_decodec
    have h6 := h.audio_decodec
    simp [chain_conditions, chain_step_calls, passed_steps, chain_calls, EXIT_SUCCESS,
        EXIT_FAILURE, Event.releases, first_codec_id, step2_trace, unwind,
        h0, h1, h2, hfv, hfa, hve, hae, h5, h6, h7, h8, h9, h10, h11, h12]
  | packet_alloc_failed vs as h h7 h8 h9 h10 h11 h12 h13 =>
    obtain ⟨v, hfv, hve, hsv⟩ := first_stream_of_found hnb h.video_found
    obtain ⟨a, hfa, hae, hsa⟩ := first_stream_of_found hnb h.audio_found
    have hvs := h.video_stream
    have has := h.audio_stream
    rw [hsv] at hvs
    rw [hsa] at has
    cases hvs
    cases has
    have h0 := h.argc
    have h1 := h.file_open
    have h2 := h.stream_info
    have h5 := h.video_decodec
    have h6 := h.audio_decodec
    simp [chain_conditions, chain_step_calls, passed_steps, chain_calls, EXIT_SUCCESS,
        EXIT_FAILURE, Event.releases, first_codec_id, step2_trace, unwind,
        h0, h1, h2, hfv, hfa, hve, hae, h5, h6, h7, h8, h9, h10, h11, h12, h13]
  | frame_alloc_failed vs as h h7 h8 h9 h10 h11 h12 h13 h14 =>
    obtain ⟨v, hfv, hve, hsv⟩ := first_stream_of_found hnb h.video_found
    obtain ⟨a, hfa, hae, hsa⟩ := first_stream_of_found hnb h.audio_found
    have hvs := h.video_stream
    have has := h.audio_stream
    rw [hsv] at hvs
    rw [hsa] at has
    cases hvs
    cases has
    have h0 := h.argc
    have h1 := h.file_open
    have h2 := h.stream_info
    have h5 := h.video_decodec
    have h6 := h.audio_decodec
    simp [chain_conditions, chain_step_calls, passed_steps, chain_calls, EXIT_SUCCESS,
        EXIT_FAILURE, Event.releases, first_codec_id, step2_trace, unwind,
        h0, h1, h2, hfv, hfa, hve, hae, h5, h6, h7, h8, h9, h10, h11, h12, h13, h14]
  | success vs as h h7 h8 h9 h10 h11 h12 h13 h14 =>
    obtain ⟨v, hfv, hve, hsv⟩ := first_stream_of_found hnb h.video_found
    obtain ⟨a, hfa, hae, hsa⟩ := first_stream_of_found hnb h.audio_found
    have hvs := h.video_stream
    have has := h.audio_stream
    rw [hsv] at hvs
    rw [hsa] at has
    cases hvs
    cases has
    have h0 := h.argc
    have h1 := h.file_open
    have h2 := h.stream_info
    have h5 := h.video_decodec
    have h6 := h.audio_decodec
    simp [chain_conditions, chain_step_calls, passed_steps, chain_calls, EXIT_SUCCESS,
        EXIT_FAILURE, Event.releases, first_codec_id, step2_trace, unwind,
        h0, h1, h2, hfv, hfa, hve, hae, h5, h6, h7, h8, h9, h10, h11, h12, h13, h14]

/-- C3 is false as stated, at `wide_lib`: every call succeeds and the stream
table has `INT_MAX + 2` entries, video only at index `INT_MAX + 1`.  All
fifteen conditions hold, the video scan leaves the index `INT_MIN`, and the
run ends in the read of `ctx->streams[INT_MIN]` at the first decoder lookup
instead of returning `EXIT_SUCCESS`. -/
theorem chain_breaks_above_INT_MAX :
    (∀ c ∈ chain_conditions demo_argv wide_lib, c = true) ∧
    find_stream wide_lib.ctx AVMEDIA_TYPE_VIDEO = -2147483648 ∧
    MainC.main demo_argv wide_lib =
      ⟨[.avformat_open_input "in.mp4" 0, .avformat_find_stream_info 0], .out_of_range_read⟩ ∧
    (MainC.main demo_argv wide_lib).outcome ≠ .returned EXIT_SUCCESS ∧
    (MainC.main demo_argv wide_lib).outcome ≠ .returned EXIT_FAILURE := by
  have hv : find_stream wide_lib.ctx AVMEDIA_TYPE_VIDEO = -2147483648 := wide_ctx_video_inx
  have ha : find_stream wide_lib.ctx AVMEDIA_TYPE_AUDIO = 0 := wide_ctx_audio_inx
  have hfv : first_stream wide_ctx AVMEDIA_TYPE_VIDEO = some 2147483648 :=
    first_stream_of_first wide_ctx_first_video
  have hfa : first_stream wide_ctx AVMEDIA_TYPE_AUDIO = some 0 :=
    first_stream_of_first wide_ctx_first_audio
  have hrun : MainC.main demo_argv wide_lib =
      ⟨[.avformat_open_input "in.mp4" 0, .avformat_find_stream_info 0],
        .out_of_range_read⟩ :=
    EarlyExit.mainc_eq (EarlyExit.video_read_out_of_range
      (by decide) rfl (by decide) (by rw [hv]; decide) (by rw [ha]; decide)
      (by rw [hv]; rfl))
  refine ⟨?_, hv, hrun, ?_, ?_⟩
  · simp [chain_conditions, first_codec_id, hfv, hfa, wide_lib, demo_lib, demo_argv, arg]
  · rw [hrun]
    simp
  · rw [hrun]
    simp

/-- C3 as amended, at `frame_fails_lib`: fourteen steps pass, the fifteenth
(`av_frame_alloc`) fails, and the run made all twelve library calls. -/
theorem chain_to_first_failure_witness :
    frame_fails_lib.ctx.nb_streams ≤ INT_MAX ∧
    (MainC.main demo_argv frame_fails_lib).outcome = .returned EXIT_FAILURE ∧
    chain_calls (MainC.main demo_argv frame_fails_lib).trace =
      ((chain_step_calls demo_argv frame_fails_lib).take
        (passed_steps demo_argv frame_fails_lib + 1)).flatten :=
  ⟨by decide,
   (chain_to_first_failure demo_argv frame_fails_lib (by decide)).2.1 (by decide),
   (chain_to_first_failure demo_argv frame_fails_lib (by decide)).2.2⟩

end ForFeit
